import Mathlib

/-!
Verification of the RAG query-routing and retrieval core of the backend
repository.  Python sources are shallowly embedded as Lean functions:

* `app/rag/router.py`            — the routing decision ladder (`route_query`)
* `app/rag/router/router.py`     — the newer router with post-ladder filter
                                   sanitization
* `app/rag/retriever_rank.py`    — RRF fusion, boosts and finalization
* `app/rag/retriever/retriever.py` — fetch sizing, per-store fetch and lane
                                   composition (`retrieve_multi`)
* `app/rag/retriever.py`         — the legacy fetch sizing
* `app/rag/pipeline/retrieve.py` — pin injection (`_append_pins`)
* `app/rag/pipeline/pipeline.py` — the `run_rag` search gate

Python floats are modelled as `ℚ`, dicts as association lists (insertion
ordered), and Python string truthiness (`x or y`) as emptiness tests.
-/

namespace RagSpec

/-- `_unique_in_order` (router.py:28, retriever_terms.py:32): de-duplicate,
keeping the first occurrence order. -/
def uniqueInOrderGo (seen : List String) : List String → List String
  | [] => []
  | x :: xs => if x ∈ seen then uniqueInOrderGo seen xs
               else x :: uniqueInOrderGo (x :: seen) xs

def uniqueInOrder (items : List String) : List String :=
  uniqueInOrderGo [] items

/-- Python `needle in haystack` on strings (substring containment). -/
def strContains (haystack needle : String) : Bool :=
  decide (needle.toList <:+: haystack.toList)

/-- `_contains_any` (router/router.py:125): any term occurs in the text. -/
def containsAny (text : String) (terms : List String) : Bool :=
  terms.any (fun term => strContains text term)

/-! ## Vocabulary constants (`app/rag/vocab/keyword_dict.py`) -/

def ROUTE_CARD_INFO : String := "card_info"

def ROUTE_CARD_USAGE : String := "card_usage"

/-- `ACTION_ALLOWLIST` (keyword_dict.py:21). -/
def ACTION_ALLOWLIST : List String := ["분실", "분실도난"]

/-- `PAYMENT_ALLOWLIST` (keyword_dict.py:32): the canonical payment keys. -/
def PAYMENT_ALLOWLIST : List String :=
  ["iM유페이", "네이버페이", "삼성페이", "애플페이", "카카오페이", "티머니"]

/-- `WEAK_INTENT_ROUTE_HINTS` (keyword_dict.py:35). -/
def WEAK_INTENT_ROUTE_HINTS : List (String × String) :=
  [("혜택", ROUTE_CARD_INFO), ("발급", ROUTE_CARD_USAGE), ("신청", ROUTE_CARD_USAGE),
   ("사용", ROUTE_CARD_USAGE), ("사용처", ROUTE_CARD_USAGE)]

/-! ## The flat router's decision ladder (`app/rag/router.py:256-392`)

The signal-extraction front end (FlashText scans, fallbacks, fuzzy matching)
produces the matched lists `card_names`, `actions`, `payments`,
`weak_intents` and compound-pattern hits; the decision part of `route_query`
(lines 295-392) is a pure function of those lists and the normalized query,
embedded here.  `STRICT_SEARCH` and `MIN_QUERY_LEN` are environment-driven
module constants (defaults `True` and `2`), passed as parameters. -/

structure RouterDecision where
  route : Option String
  dbRoute : Option String
  boost : List (String × List String)
  queryTemplate : Option String
  shouldSearch : Bool
  shouldTrigger : Bool
  deriving Repr, DecidableEq

/-- The `if/elif` ladder of `route_query` (router.py:311-374): it assigns
`ui_route`, `db_route`, `boost`, `query_template` and `should_trigger`.
`actionsM` is the action list after compound-pattern hits were unioned in
(router.py:295-297). -/
structure LadderCore where
  route : Option String
  dbRoute : Option String
  boost : List (String × List String)
  queryTemplate : Option String
  shouldTrigger : Bool
  deriving Repr, DecidableEq

def ladderCore (cardNames actionsM payments weakIntents : List String) : LadderCore :=
  if !cardNames.isEmpty && !actionsM.isEmpty then
    { route := some ROUTE_CARD_USAGE, dbRoute := some "both",
      boost := [("card_name", cardNames), ("intent", actionsM)]
        ++ (if !payments.isEmpty then [("payment_method", payments)] else [])
        ++ (if !weakIntents.isEmpty then [("weak_intent", weakIntents)] else []),
      queryTemplate := some (cardNames.headD "" ++ " " ++ actionsM.headD "" ++ " 방법"),
      shouldTrigger := true }
  else if !cardNames.isEmpty && !payments.isEmpty then
    { route := some ROUTE_CARD_USAGE, dbRoute := some "card_tbl",
      boost := [("card_name", cardNames), ("payment_method", payments)],
      queryTemplate := some (cardNames.headD "" ++ " " ++ payments.headD "" ++ " 사용 방법"),
      shouldTrigger := true }
  else if !cardNames.isEmpty && !weakIntents.isEmpty then
    let uiRoute := ((WEAK_INTENT_ROUTE_HINTS.lookup (weakIntents.headD "")).getD
      ROUTE_CARD_USAGE)
    { route := some uiRoute, dbRoute := some "both",
      boost := [("card_name", cardNames), ("weak_intent", weakIntents)],
      queryTemplate := some (if uiRoute = ROUTE_CARD_INFO
        then cardNames.headD "" ++ " " ++ weakIntents.headD ""
        else cardNames.headD "" ++ " " ++ weakIntents.headD "" ++ " 방법"),
      shouldTrigger := true }
  else if !cardNames.isEmpty then
    { route := some ROUTE_CARD_INFO, dbRoute := some "card_tbl",
      boost := [("card_name", cardNames)],
      queryTemplate := some (cardNames.headD "" ++ " 정보"),
      shouldTrigger := true }
  else if !actionsM.isEmpty then
    { route := some ROUTE_CARD_USAGE, dbRoute := some "guide_tbl",
      boost := [("intent", actionsM)]
        ++ (if !payments.isEmpty then [("payment_method", payments)] else []),
      queryTemplate := some ("카드 " ++ actionsM.headD "" ++ " 방법"),
      shouldTrigger := actionsM.any (fun a => a ∈ ACTION_ALLOWLIST) }
  else if !payments.isEmpty then
    { route := some ROUTE_CARD_USAGE, dbRoute := some "card_tbl",
      boost := [("payment_method", payments)],
      queryTemplate := some (payments.headD "" ++ " 사용 방법"),
      shouldTrigger := payments.any (fun p => p ∈ PAYMENT_ALLOWLIST) }
  else
    { route := some ROUTE_CARD_USAGE, dbRoute := some "both", boost := [],
      queryTemplate := none, shouldTrigger := false }

/-- router.py:295-297: compound-pattern hits are unioned into the actions. -/
def mergedActions (actions patternHits : List String) : List String :=
  if !patternHits.isEmpty then uniqueInOrder (actions ++ patternHits) else actions

def routeLadder (strictSearch : Bool) (minQueryLen : ℕ)
    (cardNames actions payments weakIntents patternHits : List String)
    (normalized : String) : RouterDecision :=
  let actionsM := mergedActions actions patternHits
  let strongSignal :=
    !cardNames.isEmpty || !actionsM.isEmpty || !payments.isEmpty || !patternHits.isEmpty
  let shouldSearch :=
    if strictSearch then strongSignal && decide (minQueryLen ≤ normalized.length)
    else true
  let core := ladderCore cardNames actionsM payments weakIntents
  { route := core.route, dbRoute := core.dbRoute, boost := core.boost,
    queryTemplate := core.queryTemplate, shouldSearch := shouldSearch,
    shouldTrigger := core.shouldTrigger }

/-! ## The newer router (`app/rag/router/router.py`)

Its signal extraction (`app/rag/router/signals.py`) and decision table
(`app/rag/router/rules.py`) modules are not part of the source tree; the
post-processing in `router/router.py` itself (phone-lookup override, force
rules, filter sanitization, K-패스 special case) is embedded faithfully. -/

def PHONE_LOOKUP_TERMS : List String :=
  ["전화번호", "고객센터", "콜센터", "ars", "연락처", "상담원", "대표번호", "문의전화", "문의 전화"]

def CARDINFO_TERMS : List String :=
  ["괜찮", "좋아", "혜택", "추천", "연회비", "조건", "신청", "발급", "한도", "실적",
   "할인", "서류", "방법"]

def LOSS_STRONG_TERMS : List String :=
  ["분실", "잃어버", "도난", "훔", "없어졌", "주운", "주웠"]

def LOSS_ACTION_TERMS : List String :=
  ["정지", "신고", "재발급", "부정사용", "승인", "결제됐", "피해"]

def CARDNAME_BAD_TOKENS : List String :=
  ["좋아요", "괜찮", "추천", "혜택", "연회비", "조건", "신청", "서류", "방법", "얼마",
   "한도", "할인"]

def KPASS_TERMS : List String := ["k패스", "k-pass", "케이패스"]

def KPASS_BENEFIT : List (String × List String) :=
  [("다자녀", ["다자녀", "2자녀", "세자녀", "자녀", "미성년 자녀"]),
   ("체크", ["체크", "체크카드"]),
   ("청년", ["청년", "만 19", "만19", "만 34", "만34"])]

def REGION_MAP : List (String × List String) :=
  [("경기", ["경기", "경기도"]), ("충남", ["충남", "충청남도"]),
   ("충북", ["충북", "충청북도"]), ("서울", ["서울", "서울시"])]

def isPhoneLookup (normalized : String) : Bool :=
  containsAny normalized PHONE_LOOKUP_TERMS

/-- `_is_loss_intent` (router/router.py:133-139). -/
def isLossIntent (normalized : String) : Bool :=
  let strong := containsAny normalized LOSS_STRONG_TERMS
  let action := containsAny normalized LOSS_ACTION_TERMS
  let infoLike := containsAny normalized CARDINFO_TERMS
  if strong && !infoLike then true else strong && action

/-- Python `str.lower()` (ASCII case folding; the Korean vocabulary is
unaffected by case). -/
def strLower (s : String) : String :=
  String.mk (s.data.map Char.toLower)

/-- `_is_plausible_card_name` (router/router.py:142-146). -/
def isPlausibleCardName (name : String) : Bool :=
  let lowered := strLower name
  if CARDNAME_BAD_TOKENS.any (fun token => strContains lowered token) then false
  else decide (lowered.length < 18)

def extractKpassRegion (normalized : String) : Option String :=
  (REGION_MAP.find? (fun kv => kv.2.any (fun p => strContains normalized p))).map
    (fun kv => kv.1)

def extractKpassBenefits (normalized : String) : List String :=
  (KPASS_BENEFIT.filter (fun kv => kv.2.any (fun p => strContains normalized p))).map
    (fun kv => kv.1)

/-! Python dict operations on the filter map (insertion-ordered association
list with unique keys): assignment keeps the key's position, `pop` removes. -/

def setF : List (String × List String) → String → List String → List (String × List String)
  | [], k, v => [(k, v)]
  | (k', v') :: rest, k, v =>
      if k' = k then (k', v) :: rest else (k', v') :: setF rest k v

def popF (m : List (String × List String)) (k : String) : List (String × List String) :=
  m.filter (fun p => p.1 ≠ k)

def setdefaultF (m : List (String × List String)) (k : String) (v : List String) :
    List (String × List String) :=
  if (m.lookup k).isSome then m else setF m k v

/-- The per-value predicate of the loss-token cleanup
(router/router.py:279-281): keep values free of 분실/도난. -/
def lossTokenFree (v : String) : Bool :=
  !(strContains v "분실") && !(strContains v "도난")

/-- One step of the loss-token cleanup loop (router/router.py:275-285): for
the given key, keep only values without 분실/도난, dropping the key when
nothing survives. -/
def cleanupLossKey (m : List (String × List String)) (k : String) :
    List (String × List String) :=
  let values := (m.lookup k).getD []
  let filtered := values.filter lossTokenFree
  if !filtered.isEmpty then setF m k filtered else popF m k

/-- Card-name plausibility cleanup (router/router.py:265-273). -/
def sanitizeCardName (boost : List (String × List String)) :
    List (String × List String) :=
  match boost.lookup "card_name" with
  | none => boost
  | some rawNames =>
      let cleaned := rawNames.filter isPlausibleCardName
      if !cleaned.isEmpty then setF boost "card_name" cleaned
      else popF boost "card_name"

/-- Loss-token cleanup and info-seeking intent drop (router/router.py:274-287). -/
def sanitizeLossInfo (m : List (String × List String)) (normalized : String) :
    List (String × List String) :=
  if !(isLossIntent normalized) then
    let g := cleanupLossKey (cleanupLossKey m "intent") "weak_intent"
    if containsAny normalized CARDINFO_TERMS then popF (popF g "intent") "weak_intent"
    else g
  else m

/-- K-패스 special-case filter injection (router/router.py:289-298). -/
def applyKpass (m : List (String × List String)) (normalized : String) :
    List (String × List String) :=
  if containsAny normalized KPASS_TERMS then
    let g1 := setdefaultF m "card_name" ["K-패스"]
    let g2 := match extractKpassRegion normalized with
      | some region => setF g1 "region" [region]
      | none => g1
    let benefits := extractKpassBenefits normalized
    if !benefits.isEmpty then setF g2 "benefit_type" benefits else g2
  else m

/-- Filter sanitization of the newer router (router/router.py:263-301):
card-name plausibility cleanup, loss-token cleanup with the info-seeking
intent drop, and the K-패스 special-case filter injection, in source order. -/
def sanitizeFilters (boost : List (String × List String)) (normalized : String) :
    List (String × List String) :=
  applyKpass (sanitizeLossInfo (sanitizeCardName boost) normalized) normalized

/-- Modelled from the spec: `decide_route` (`app/rag/router/rules.py`) is not
under src/.  Its route, store scope, boost set, query template and trigger
follow the §4.3 ordered rule table, which the embedded ladder implements
(rule 1: card+action → card_usage, both stores, boosts with card and intent
filters; rules 2-7 analogous).  Only those fields are consumed below. -/
def decideRouteM (cardNames actions payments weakIntents patternHits : List String)
    (normalized : String) : RouterDecision :=
  routeLadder true 2 cardNames actions payments weakIntents patternHits normalized

structure NewRouterResult where
  route : Option String
  filters : List (String × List String)
  dbRoute : Option String
  uiRoute : Option String
  phoneLookupFlag : Bool
  queryTemplate : Option String
  shouldSearch : Bool
  shouldTrigger : Bool
  deriving Repr, DecidableEq

/-- `route_query` of the newer router (router/router.py:183-333), as a
function of the extracted signals, with the force-rule table
(`ROUTER_FORCE_RULES`, not under src/) abstracted as an optional matched
route. -/
def routeQueryNew (forceRule : Option String)
    (cardNames actions payments weakIntents patternHits : List String)
    (normalized : String) : NewRouterResult :=
  if isPhoneLookup normalized then
    { route := some "card_usage", filters := [("intent", ["phone_lookup"])],
      dbRoute := some "guide_tbl", uiRoute := some "phone_lookup",
      phoneLookupFlag := true, queryTemplate := none,
      shouldSearch := true, shouldTrigger := true }
  else match forceRule with
  | some forced =>
      { route := some forced, filters := [], dbRoute := some "card_tbl",
        uiRoute := some forced, phoneLookupFlag := false, queryTemplate := none,
        shouldSearch := true, shouldTrigger := true }
  | none =>
      let ladder := decideRouteM cardNames actions payments weakIntents patternHits
        normalized
      let filters := sanitizeFilters ladder.boost normalized
      { route := ladder.route, filters := filters, dbRoute := ladder.dbRoute,
        uiRoute := ladder.route, phoneLookupFlag := false,
        queryTemplate := ladder.queryTemplate,
        shouldSearch := ladder.shouldSearch, shouldTrigger := ladder.shouldTrigger }

/-! ## Association-map lemmas for the sanitization proofs -/

theorem lookup_cons_eq (k : String) (b : List String) (es : List (String × List String)) :
    List.lookup k ((k, b) :: es) = some b := by
  simp [List.lookup]

theorem lookup_cons_ne (k a : String) (b : List String) (es : List (String × List String))
    (h : k ≠ a) : List.lookup k ((a, b) :: es) = List.lookup k es := by
  simp only [List.lookup]
  rw [show (k == a) = false from beq_eq_false_iff_ne.mpr h]

theorem lookup_setF_self (m : List (String × List String)) (k : String) (v : List String) :
    (setF m k v).lookup k = some v := by
  induction m with
  | nil => simp [setF]
  | cons p rest ih =>
      obtain ⟨k', v'⟩ := p
      by_cases h : k' = k
      · subst h
        simp [setF]
      · rw [show setF ((k', v') :: rest) k v = (k', v') :: setF rest k v from by
          simp [setF, h]]
        rw [lookup_cons_ne k k' v' _ (Ne.symm h), ih]

theorem lookup_setF_ne (m : List (String × List String)) (k k' : String) (v : List String)
    (h : k' ≠ k) : (setF m k v).lookup k' = m.lookup k' := by
  induction m with
  | nil =>
      rw [show setF [] k v = [(k, v)] from rfl, lookup_cons_ne k' k v [] h]
  | cons p rest ih =>
      obtain ⟨a, b⟩ := p
      by_cases ha : a = k
      · subst ha
        rw [show setF ((a, b) :: rest) a v = (a, v) :: rest from by simp [setF]]
        rw [lookup_cons_ne k' a v rest h, lookup_cons_ne k' a b rest h]
      · rw [show setF ((a, b) :: rest) k v = (a, b) :: setF rest k v from by
          simp [setF, ha]]
        by_cases hb : k' = a
        · subst hb
          rw [lookup_cons_eq, lookup_cons_eq]
        · rw [lookup_cons_ne k' a b _ hb, lookup_cons_ne k' a b rest hb, ih]

theorem lookup_popF_self (m : List (String × List String)) (k : String) :
    (popF m k).lookup k = none := by
  induction m with
  | nil => simp [popF]
  | cons p rest ih =>
      obtain ⟨a, b⟩ := p
      by_cases ha : a = k
      · subst ha
        simpa [popF] using ih
      · rw [show popF ((a, b) :: rest) k = (a, b) :: popF rest k from by
          simp [popF, List.filter, ha]]
        rw [lookup_cons_ne k a b _ (Ne.symm ha), ih]

theorem lookup_popF_ne (m : List (String × List String)) (k k' : String) (h : k' ≠ k) :
    (popF m k).lookup k' = m.lookup k' := by
  induction m with
  | nil => simp [popF]
  | cons p rest ih =>
      obtain ⟨a, b⟩ := p
      by_cases ha : a = k
      · subst ha
        rw [show popF ((a, b) :: rest) a = popF rest a from by simp [popF, List.filter]]
        rw [lookup_cons_ne k' a b rest h, ih]
      · rw [show popF ((a, b) :: rest) k = (a, b) :: popF rest k from by
          simp [popF, List.filter, ha]]
        by_cases hb : k' = a
        · subst hb
          rw [lookup_cons_eq, lookup_cons_eq]
        · rw [lookup_cons_ne k' a b _ hb, lookup_cons_ne k' a b rest hb, ih]

theorem lookup_cleanupLossKey_ne (m : List (String × List String)) (k k' : String)
    (h : k' ≠ k) : (cleanupLossKey m k).lookup k' = m.lookup k' := by
  simp only [cleanupLossKey]
  split
  · exact lookup_setF_ne m k k' _ h
  · exact lookup_popF_ne m k k' h

theorem uniqueInOrder_ne_nil (l : List String) (h : l ≠ []) : uniqueInOrder l ≠ [] := by
  match l with
  | [] => exact absurd rfl h
  | x :: xs => simp [uniqueInOrder, uniqueInOrderGo]

theorem mergedActions_ne_nil (actions patternHits : List String) (h : actions ≠ []) :
    mergedActions actions patternHits ≠ [] := by
  unfold mergedActions
  split
  · exact uniqueInOrder_ne_nil _ (by simp [h])
  · exact h

/-- Both lookups needed from the rule-1 boost set. -/
theorem ladderCore_card_action (cardNames am payments weakIntents : List String)
    (hce : cardNames.isEmpty = false) (hae : am.isEmpty = false) :
    (ladderCore cardNames am payments weakIntents).route = some ROUTE_CARD_USAGE ∧
    (ladderCore cardNames am payments weakIntents).dbRoute = some "both" ∧
    (ladderCore cardNames am payments weakIntents).boost
      = ("card_name", cardNames) :: ("intent", am)
        :: ((if !payments.isEmpty then [("payment_method", payments)] else [])
          ++ (if !weakIntents.isEmpty then [("weak_intent", weakIntents)] else [])) := by
  simp [ladderCore, hce, hae]

/-- C2 (counterexample): for the matched signals card_name=[K-패스] and
action=[등록] on the normalized query "k-패스 등록 방법" (an info-seeking
wording), the newer router returns route=card_usage and scope both, but its
sanitization drops the intent filter, so the filter set does not contain
both filters as the claim states. -/
theorem c2_counterexample :
    (routeQueryNew none ["K-패스"] ["등록"] [] [] [] "k-패스 등록 방법").route
      = some "card_usage" ∧
    (routeQueryNew none ["K-패스"] ["등록"] [] [] [] "k-패스 등록 방법").dbRoute
      = some "both" ∧
    ((routeQueryNew none ["K-패스"] ["등록"] [] [] [] "k-패스 등록 방법").filters.lookup
      "card_name").isSome = true ∧
    (routeQueryNew none ["K-패스"] ["등록"] [] [] [] "k-패스 등록 방법").filters.lookup
      "intent" = none := by
  decide

/-- `sanitizeLossInfo` never touches the card_name entry. -/
theorem lookup_sanitizeLossInfo_cn (m : List (String × List String)) (nm : String) :
    (sanitizeLossInfo m nm).lookup "card_name" = m.lookup "card_name" := by
  cases hL : isLossIntent nm with
  | true => simp [sanitizeLossInfo, hL]
  | false =>
      cases hI : containsAny nm CARDINFO_TERMS with
      | true =>
          simp only [sanitizeLossInfo, hL, Bool.not_false, if_true, hI]
          rw [lookup_popF_ne _ _ _ (by decide), lookup_popF_ne _ _ _ (by decide),
            lookup_cleanupLossKey_ne _ _ _ (by decide),
            lookup_cleanupLossKey_ne _ _ _ (by decide)]
      | false =>
          simp only [sanitizeLossInfo, hL, Bool.not_false, if_true, hI,
            Bool.false_eq_true, if_false]
          rw [lookup_cleanupLossKey_ne _ _ _ (by decide),
            lookup_cleanupLossKey_ne _ _ _ (by decide)]

/-- When the query is not info-seeking and some intent value survives the
loss-token cleanup, `sanitizeLossInfo` keeps (exactly the surviving part of)
the intent entry. -/
theorem lookup_sanitizeLossInfo_intent (m : List (String × List String)) (nm : String)
    (am : List String) (hm : m.lookup "intent" = some am)
    (hL : isLossIntent nm = false) (hI : containsAny nm CARDINFO_TERMS = false)
    (hf : am.filter lossTokenFree ≠ []) :
    (sanitizeLossInfo m nm).lookup "intent" = some (am.filter lossTokenFree) := by
  have hfE : (am.filter lossTokenFree).isEmpty = false := by
    cases h : am.filter lossTokenFree with
    | nil => exact absurd h hf
    | cons a as => rfl
  have hclean : cleanupLossKey m "intent" = setF m "intent" (am.filter lossTokenFree) := by
    simp only [cleanupLossKey]
    rw [hm]
    simp [hfE]
  simp only [sanitizeLossInfo, hL, Bool.not_false, if_true, hI, Bool.false_eq_true,
    if_false]
  rw [lookup_cleanupLossKey_ne _ _ _ (by decide), hclean, lookup_setF_self]

/-- `applyKpass` never touches keys other than card_name, region and
benefit_type. -/
theorem lookup_applyKpass_ne (m : List (String × List String)) (nm k : String)
    (h1 : k ≠ "card_name") (h2 : k ≠ "region") (h3 : k ≠ "benefit_type") :
    (applyKpass m nm).lookup k = m.lookup k := by
  cases hK : containsAny nm KPASS_TERMS with
  | false => simp [applyKpass, hK]
  | true =>
      have hsd : (setdefaultF m "card_name" ["K-패스"]).lookup k = m.lookup k := by
        unfold setdefaultF
        split
        · rfl
        · exact lookup_setF_ne _ _ _ _ h1
      rcases hr : extractKpassRegion nm with _ | region
      · simp only [applyKpass, hK, hr, if_true]
        split
        · rw [lookup_setF_ne _ "benefit_type" k _ h3]
          exact hsd
        · exact hsd
      · simp only [applyKpass, hK, hr, if_true]
        split
        · rw [lookup_setF_ne _ "benefit_type" k _ h3, lookup_setF_ne _ "region" k _ h2]
          exact hsd
        · rw [lookup_setF_ne _ "region" k _ h2]
          exact hsd

/-- `applyKpass` keeps a present card_name entry unchanged. -/
theorem lookup_applyKpass_cn (m : List (String × List String)) (nm : String)
    (h : (m.lookup "card_name").isSome = true) :
    (applyKpass m nm).lookup "card_name" = m.lookup "card_name" := by
  cases hK : containsAny nm KPASS_TERMS with
  | false => simp [applyKpass, hK]
  | true =>
      have hsd : setdefaultF m "card_name" ["K-패스"] = m := by
        unfold setdefaultF
        rw [h]
        rfl
      rcases hr : extractKpassRegion nm with _ | region
      · simp only [applyKpass, hK, hr, if_true, hsd]
        split
        · rw [lookup_setF_ne _ "benefit_type" "card_name" _ (by decide)]
        · rfl
      · simp only [applyKpass, hK, hr, if_true, hsd]
        split
        · rw [lookup_setF_ne _ "benefit_type" "card_name" _ (by decide),
            lookup_setF_ne _ "region" "card_name" _ (by decide)]
        · rw [lookup_setF_ne _ "region" "card_name" _ (by decide)]

/-- The card-name cleanup on a rule-1 boost with a surviving plausible name. -/
theorem sanitizeCardName_cons (cn : List String) (rest : List (String × List String))
    (h : cn.filter isPlausibleCardName ≠ []) :
    sanitizeCardName (("card_name", cn) :: rest)
      = setF (("card_name", cn) :: rest) "card_name" (cn.filter isPlausibleCardName) := by
  have hE : (cn.filter isPlausibleCardName).isEmpty = false := by
    cases hc : cn.filter isPlausibleCardName with
    | nil => exact absurd hc h
    | cons a as => rfl
  unfold sanitizeCardName
  rw [lookup_cons_eq]
  simp [hE]

/-- C2 (amended): for queries with a matched (plausible) card name and a
matched action that is not phone-lookup and matches no force rule, the newer
router returns route=card_usage with scope both and the card_name filter
present; the intent filter is also present provided the query has loss/theft
intent, or contains no info-seeking term and some matched action survives
the loss-token cleanup. -/
theorem c2_amended (cardNames actions payments weakIntents patternHits : List String)
    (normalized : String)
    (hphone : isPhoneLookup normalized = false)
    (hcard : cardNames ≠ [])
    (hact : actions ≠ [])
    (hplaus : cardNames.filter isPlausibleCardName ≠ [])
    (hkeep : isLossIntent normalized = true ∨
      (containsAny normalized CARDINFO_TERMS = false ∧
        (mergedActions actions patternHits).filter lossTokenFree ≠ [])) :
    (routeQueryNew none cardNames actions payments weakIntents patternHits
      normalized).route = some "card_usage" ∧
    (routeQueryNew none cardNames actions payments weakIntents patternHits
      normalized).dbRoute = some "both" ∧
    ((routeQueryNew none cardNames actions payments weakIntents patternHits
      normalized).filters.lookup "card_name").isSome = true ∧
    ((routeQueryNew none cardNames actions payments weakIntents patternHits
      normalized).filters.lookup "intent").isSome = true := by
  have hce : cardNames.isEmpty = false := by
    cases cardNames with
    | nil => exact absurd rfl hcard
    | cons c cs => rfl
  have ham : mergedActions actions patternHits ≠ [] := mergedActions_ne_nil _ _ hact
  have hae : (mergedActions actions patternHits).isEmpty = false := by
    cases h : mergedActions actions patternHits with
    | nil => exact absurd h ham
    | cons a as => rfl
  obtain ⟨hroute, hdb, hboost⟩ :=
    ladderCore_card_action cardNames (mergedActions actions patternHits) payments
      weakIntents hce hae
  have hred : routeQueryNew none cardNames actions payments weakIntents patternHits
      normalized =
      { route := (ladderCore cardNames (mergedActions actions patternHits) payments
          weakIntents).route,
        filters := sanitizeFilters (ladderCore cardNames (mergedActions actions
          patternHits) payments weakIntents).boost normalized,
        dbRoute := (ladderCore cardNames (mergedActions actions patternHits) payments
          weakIntents).dbRoute,
        uiRoute := (ladderCore cardNames (mergedActions actions patternHits) payments
          weakIntents).route,
        phoneLookupFlag := false,
        queryTemplate := (ladderCore cardNames (mergedActions actions patternHits)
          payments weakIntents).queryTemplate,
        shouldSearch := (routeLadder true 2 cardNames actions payments weakIntents
          patternHits normalized).shouldSearch,
        shouldTrigger := (ladderCore cardNames (mergedActions actions patternHits)
          payments weakIntents).shouldTrigger } := by
    simp [routeQueryNew, hphone, decideRouteM, routeLadder]
  -- lookups on the sanitized rule-1 boost
  have hs1 := sanitizeCardName_cons cardNames (("intent", mergedActions actions
    patternHits) :: ((if !payments.isEmpty then [("payment_method", payments)] else [])
      ++ (if !weakIntents.isEmpty then [("weak_intent", weakIntents)] else []))) hplaus
  have hscn_cn : (sanitizeCardName (("card_name", cardNames) :: ("intent",
      mergedActions actions patternHits) :: ((if !payments.isEmpty
        then [("payment_method", payments)] else [])
      ++ (if !weakIntents.isEmpty then [("weak_intent", weakIntents)]
        else [])))).lookup "card_name"
      = some (cardNames.filter isPlausibleCardName) := by
    rw [hs1]
    exact lookup_setF_self _ _ _
  have hscn_int : (sanitizeCardName (("card_name", cardNames) :: ("intent",
      mergedActions actions patternHits) :: ((if !payments.isEmpty
        then [("payment_method", payments)] else [])
      ++ (if !weakIntents.isEmpty then [("weak_intent", weakIntents)]
        else [])))).lookup "intent"
      = some (mergedActions actions patternHits) := by
    rw [hs1, lookup_setF_ne _ _ _ _ (by decide),
      lookup_cons_ne _ _ _ _ (by decide)]
    exact lookup_cons_eq _ _ _
  have hloss_cn : (sanitizeLossInfo (sanitizeCardName (("card_name", cardNames)
      :: ("intent", mergedActions actions patternHits) :: ((if !payments.isEmpty
        then [("payment_method", payments)] else [])
      ++ (if !weakIntents.isEmpty then [("weak_intent", weakIntents)] else []))))
      normalized).lookup "card_name" = some (cardNames.filter isPlausibleCardName) := by
    rw [lookup_sanitizeLossInfo_cn]
    exact hscn_cn
  have hloss_int : ((sanitizeLossInfo (sanitizeCardName (("card_name", cardNames)
      :: ("intent", mergedActions actions patternHits) :: ((if !payments.isEmpty
        then [("payment_method", payments)] else [])
      ++ (if !weakIntents.isEmpty then [("weak_intent", weakIntents)] else []))))
      normalized).lookup "intent").isSome = true := by
    cases hLI : isLossIntent normalized with
    | false =>
        rcases hkeep with hkeep | ⟨hinfo, hfilter⟩
        · rw [hLI] at hkeep
          exact absurd hkeep (by decide)
        · rw [lookup_sanitizeLossInfo_intent _ _ _ hscn_int hLI hinfo hfilter]
          rfl
    | true =>
        simp only [sanitizeLossInfo, hLI, Bool.not_true, Bool.false_eq_true, if_false]
        rw [hscn_int]
        rfl
  refine ⟨?_, ?_, ?_, ?_⟩
  · rw [hred]
    exact hroute
  · rw [hred]
    exact hdb
  · rw [hred]
    show ((sanitizeFilters _ normalized).lookup "card_name").isSome = true
    rw [hboost]
    unfold sanitizeFilters
    rw [lookup_applyKpass_cn _ _ (by rw [hloss_cn]; rfl), hloss_cn]
    rfl
  · rw [hred]
    show ((sanitizeFilters _ normalized).lookup "intent").isSome = true
    rw [hboost]
    unfold sanitizeFilters
    rw [lookup_applyKpass_ne _ _ _ (by decide) (by decide) (by decide)]
    exact hloss_int

/-- C2 (witness): a loss/theft query with a plausible card name and a matched
action, run through the amended theorem. -/
theorem c2_amended_witness :
    (routeQueryNew none ["나라사랑카드"] ["분실"] [] [] [] "나라사랑 잃어버렸어요").route
      = some "card_usage" ∧
    (routeQueryNew none ["나라사랑카드"] ["분실"] [] [] [] "나라사랑 잃어버렸어요").dbRoute
      = some "both" ∧
    ((routeQueryNew none ["나라사랑카드"] ["분실"] [] [] []
      "나라사랑 잃어버렸어요").filters.lookup "card_name").isSome = true ∧
    ((routeQueryNew none ["나라사랑카드"] ["분실"] [] [] []
      "나라사랑 잃어버렸어요").filters.lookup "intent").isSome = true :=
  c2_amended ["나라사랑카드"] ["분실"] [] [] [] "나라사랑 잃어버렸어요" (by decide)
    (by decide) (by decide) (by decide) (Or.inl (by decide))

/-- C3 (counterexample): for an action-only query whose action is outside the
allow-list ("등록" matched on "등록 방법"), the flat router sets
should_search = true while should_trigger = false, so should_search does not
equal (trigger AND len ≥ min_len). -/
theorem c3_counterexample :
    ¬ ((routeLadder true 2 [] ["등록"] [] [] [] "등록 방법").shouldSearch
      = ((routeLadder true 2 [] ["등록"] [] [] [] "등록 방법").shouldTrigger
        && decide (2 ≤ "등록 방법".length))) := by
  decide

/-- C3 (amended): under strict mode, should_search equals (any of the
card/action/payment/compound-pattern signals matched) AND len(normalized) ≥
min_len — the strong-signal test, not the ladder's trigger; with the
permissive-mode flag unset it is true regardless. -/
theorem c3_amended (strictSearch : Bool) (minQueryLen : ℕ)
    (cardNames actions payments weakIntents patternHits : List String)
    (normalized : String) :
    (routeLadder strictSearch minQueryLen cardNames actions payments weakIntents
      patternHits normalized).shouldSearch
      = if strictSearch then
          ((!cardNames.isEmpty || !actions.isEmpty || !payments.isEmpty
            || !patternHits.isEmpty) && decide (minQueryLen ≤ normalized.length))
        else true := by
  cases patternHits with
  | nil => simp [routeLadder, mergedActions]
  | cons p ps => simp [routeLadder]

/-! ## Retrieval ranking (`app/rag/retriever_rank.py`, config from
`app/rag/retriever/config.py` and the environment defaults)

Scores are Python floats, modelled as `ℚ`. -/

def RRF_K : ℕ := 60

def CARD_META_WEIGHT : ℕ := 8

def MIN_GUIDE_CONTENT_LEN : ℕ := 60

def BOOST_ENABLED : Bool := true

def BOOST_CARD : ℚ := 0.2

def BOOST_CARD_GUIDE_REDUCE : ℚ := 1.0

def BOOST_INTENT : ℚ := 0.15

def BOOST_PAYMENT : ℚ := 0.1

def BOOST_WEAK : ℚ := 0.05

def BOOST_CATEGORY : ℚ := 0.05

def BOOST_GUIDE : ℚ := 0.004

def BOOST_GUIDE_COVERAGE : ℚ := 0.01

def BOOST_INTENT_TITLE : ℚ := 0.02

def PENALTY_CARD_GUIDE : ℚ := 0.06

def BOOST_GUIDE_TOKENS : List String :=
  ["다자녀", "신청", "방법", "대상", "서류", "등록", "인증", "환급", "혜택", "적립"]

/-- `CARD_TABLES` / `GUIDE_TABLES` membership (retriever_db.py:29-39). -/
def isCardTable (name : String) : Bool :=
  name = "card_tbl" || name = "card_products"

def isGuideTable (name : String) : Bool :=
  name = "guide_tbl" || name = "service_guide_documents"

/-- Row metadata: the jsonb fields read by the ranker.  Python `get` of a
missing key and an empty string are both falsy; "" models absence. -/
structure Metadata where
  title : String := ""
  name : String := ""
  cardName : String := ""
  mid : String := ""
  category : String := ""
  category1 : String := ""
  category2 : String := ""
  originalCardName : String := ""
  deriving Repr, DecidableEq, Inhabited

/-- A store row `(id, content, metadata, score)`. -/
structure Row where
  docId : String
  content : String
  metadata : Metadata
  score : ℚ
  deriving Repr, DecidableEq, Inhabited

def removeSpaces (s : String) : String :=
  String.mk (s.data.filter (fun c => c ≠ ' '))

/-- A character kept by `_CARD_NORM_RE` (retriever_rank.py:34). -/
def isCardTextChar (c : Char) : Bool :=
  (decide ('0' ≤ c) && decide (c ≤ '9')) || (decide ('a' ≤ c) && decide (c ≤ 'z'))
    || (decide ('A' ≤ c) && decide (c ≤ 'Z'))
    || (decide ('가' ≤ c) && decide (c ≤ '힣'))

/-- `_normalize_card_text` (retriever_rank.py:37-40). -/
def normalizeCardText (s : String) : String :=
  String.mk ((strLower s).data.filter isCardTextChar)

/-- Python `str.strip()`. -/
def strTrim (s : String) : String :=
  String.mk (((s.data.dropWhile Char.isWhitespace).reverse.dropWhile
    Char.isWhitespace).reverse)

/-- `_is_noisy_guide_doc` (retriever_rank.py:43-48). -/
def isNoisyGuideDoc (title content : String) : Bool :=
  if title = "" then true
  else if content = "" || decide ((strTrim content).length < MIN_GUIDE_CONTENT_LEN)
    then true
  else false

/-- `_title_match_score` (retriever_rank.py:51-59). -/
def titleMatchScore (title : String) (terms : List String) (weight : ℕ) : ℕ :=
  if title = "" then 0
  else terms.foldl (fun acc term =>
    if term ≠ "" && strContains (strLower title) (strLower term) then acc + weight
    else acc) 0

/-- `_content_match_score` (retriever_rank.py:62-70). -/
def contentMatchScore (content : String) (terms : List String) (weight : ℕ) : ℕ :=
  if content = "" then 0
  else terms.foldl (fun acc term =>
    if term ≠ "" && strContains (strLower content) (strLower term) then acc + weight
    else acc) 0

/-- `_card_meta_score` (retriever_rank.py:73-99). -/
def cardMetaScore (meta : Metadata) (cardValues : List String) : ℕ :=
  if cardValues.isEmpty then 0
  else if meta.cardName = "" then 0
  else
    let cns := meta.cardName
    let cnNorm := removeSpaces cns
    let cnCompact := normalizeCardText cns
    if cardValues.any (fun v =>
        (cns = v) || (cnNorm = removeSpaces v)
          || (v ≠ "" && strContains cns v)
          || (removeSpaces v ≠ "" && strContains cnNorm (removeSpaces v))
          || (normalizeCardText v ≠ "" && cnCompact ≠ ""
              && (normalizeCardText v = cnCompact
                || strContains cnCompact (normalizeCardText v)
                || strContains (normalizeCardText v) cnCompact)))
    then CARD_META_WEIGHT else 0

/-- `_card_term_match` (retriever_rank.py:102-117). -/
def cardTermMatch (title content : String) (cardTerms : List String) : Bool :=
  if !cardTerms.isEmpty && decide (0 < titleMatchScore title cardTerms 1) then true
  else if !cardTerms.isEmpty && decide (0 < contentMatchScore content cardTerms 1)
    then true
  else if cardTerms.isEmpty then false
  else
    let normalizedTitle := normalizeCardText title
    let normalizedContent := normalizeCardText content
    cardTerms.any (fun term =>
      normalizeCardText term ≠ ""
        && (strContains normalizedTitle (normalizeCardText term)
          || strContains normalizedContent (normalizeCardText term)))

/-- The space-joined non-empty category fields (retriever_rank.py:123-130). -/
def categoryText (meta : Metadata) : String :=
  String.intercalate " " ([meta.category, meta.category1, meta.category2].filter
    (fun v => v ≠ ""))

/-- `_category_match_score` (retriever_rank.py:120-131). -/
def categoryMatchScore (meta : Metadata) (terms : List String) : ℕ :=
  if terms.isEmpty then 0
  else if ([meta.category, meta.category1, meta.category2].filter
      (fun v => v ≠ "")).isEmpty then 0
  else titleMatchScore (categoryText meta) terms 1

/-- Search context consumed by the ranker (`SearchContext` in
retriever_terms.py:130-145; `allow_guide_without_card_match` is the extra
field read by `_finalize_candidates`, built by the retriever/terms module). -/
structure SearchContext where
  queryText : String := ""
  cardValues : List String := []
  cardTerms : List String := []
  intentTerms : List String := []
  weakTerms : List String := []
  paymentTerms : List String := []
  queryTerms : List String := []
  categoryTerms : List String := []
  searchMode : String := "GENERAL"
  wantsReissue : Bool := false
  paymentOnly : Bool := false
  extraTerms : List String := []
  allowGuideWithoutCardMatch : Bool := false
  deriving Repr, DecidableEq, Inhabited

/-- A document candidate dict; the last six fields are the annotations
written by `_score_candidate`. -/
structure DocCand where
  id : String
  dbId : String
  title : String
  content : String
  metadata : Metadata
  vectorScore : ℚ
  table : String
  cardMeta : ℕ := 0
  cardMatch : Bool := false
  rrfBoost : ℚ := 0
  score : ℚ := 0
  rrfScore : ℚ := 0
  titleScore : ℤ := 0
  deriving Repr, DecidableEq, Inhabited

/-- `_guide_tokens` (retriever_rank.py:184-197). -/
def guideTokens (ctx : SearchContext) : List String :=
  let tokens := uniqueInOrder (ctx.weakTerms ++ ctx.categoryTerms ++ ctx.intentTerms
    ++ ctx.queryTerms)
  if tokens.isEmpty then []
  else if !BOOST_GUIDE_TOKENS.isEmpty then
    tokens.filter (fun token => token ∈ BOOST_GUIDE_TOKENS)
  else tokens

/-- `_intent_title_terms` (retriever_rank.py:200-210). -/
def intentTitleTerms (intentTerms : List String) : List String :=
  if intentTerms.isEmpty then []
  else uniqueInOrder ((intentTerms.map (fun term =>
    [term] ++ (if strContains term "분실" then ["분실"] else [])
      ++ (if strContains term "도난" then ["도난"] else []))).flatten)

/-- `_doc_has_token` (retriever_rank.py:134-150). -/
def docHasToken (doc : DocCand) (tokens : List String) : Bool :=
  if tokens.isEmpty then false
  else
    let title := strLower doc.title
    let content := strLower doc.content
    let cat := strLower (categoryText doc.metadata)
    tokens.any (fun token =>
      strContains title (strLower token) || strContains content (strLower token)
        || strContains cat (strLower token))

/-- `_count_term_matches` (retriever_rank.py:153-181). -/
def countTermMatches (doc : DocCand) (terms : List String) : ℕ :=
  if terms.isEmpty then 0
  else
    let title := strLower doc.title
    let content := strLower doc.content
    let cat := strLower (categoryText doc.metadata)
    let nTitle := normalizeCardText title
    let nContent := normalizeCardText content
    let nCat := normalizeCardText cat
    terms.foldl (fun hits term =>
      if strContains title (strLower term) || strContains content (strLower term)
          || strContains cat (strLower term) then hits + 1
      else if normalizeCardText term ≠ ""
          && (strContains nTitle (normalizeCardText term)
            || strContains nContent (normalizeCardText term)
            || strContains nCat (normalizeCardText term)) then hits + 1
      else hits) 0

/-- The boost block of `_score_candidate` (retriever_rank.py:271-312), as a
function of the document and context (note it does not depend on the RRF
rank inputs). -/
def boostScore (doc : DocCand) (ctx : SearchContext) (cardMatchBase : Bool) : ℚ :=
  if BOOST_ENABLED then
    let gtoks := guideTokens ctx
    let isGuideDoc := isGuideTable doc.table
    if !ctx.cardValues.isEmpty && !cardMatchBase then 0
    else
      (if !ctx.cardValues.isEmpty && cardMatchBase then
        (if !gtoks.isEmpty && !isGuideDoc then
          BOOST_CARD * max 0 (1 - BOOST_CARD_GUIDE_REDUCE)
        else BOOST_CARD) else 0)
      + (if !ctx.intentTerms.isEmpty
          && (decide (0 < titleMatchScore doc.title ctx.intentTerms 1)
            || decide (0 < contentMatchScore doc.content ctx.intentTerms 1))
        then BOOST_INTENT else 0)
      + (if decide (0 < BOOST_INTENT_TITLE) && isGuideDoc && !ctx.intentTerms.isEmpty
          && decide (0 < titleMatchScore doc.title
            (intentTitleTerms ctx.intentTerms) 1)
        then BOOST_INTENT_TITLE else 0)
      + (if !ctx.paymentTerms.isEmpty
          && (decide (0 < titleMatchScore doc.title ctx.paymentTerms 1)
            || decide (0 < contentMatchScore doc.content ctx.paymentTerms 1))
        then BOOST_PAYMENT else 0)
      + (if !ctx.weakTerms.isEmpty
          && (decide (0 < titleMatchScore doc.title ctx.weakTerms 1)
            || decide (0 < contentMatchScore doc.content ctx.weakTerms 1))
        then BOOST_WEAK else 0)
      + (if !ctx.categoryTerms.isEmpty
          && decide (0 < categoryMatchScore doc.metadata ctx.categoryTerms)
        then BOOST_CATEGORY else 0)
      + (if decide (0 < BOOST_GUIDE) && isGuideDoc && !ctx.cardValues.isEmpty
          && cardMatchBase && !gtoks.isEmpty && docHasToken doc gtoks then
          BOOST_GUIDE + (if decide (0 < BOOST_GUIDE_COVERAGE) && !ctx.queryTerms.isEmpty
              && decide (2 ≤ countTermMatches doc ctx.queryTerms)
            then BOOST_GUIDE_COVERAGE * countTermMatches doc ctx.queryTerms else 0)
        else 0)
      - (if !gtoks.isEmpty && !isGuideDoc && !ctx.cardValues.isEmpty && cardMatchBase
        then PENALTY_CARD_GUIDE else 0)
  else 0

/-- `_score_candidate` (retriever_rank.py:251-318): annotates the candidate
with card-match flags and the fused score `rrf_score + boost`. -/
def scoreCandidate (doc : DocCand) (ctx : SearchContext) (rrfScore : ℚ) : DocCand :=
  let cms := cardMetaScore doc.metadata ctx.cardValues
  let cardMatchBase := decide (0 < cms)
    || cardTermMatch doc.title doc.content ctx.cardTerms
  let cardMatch := if !ctx.cardValues.isEmpty then cardMatchBase else true
  let boost := boostScore doc ctx cardMatchBase
  { doc with
    cardMeta := cms,
    cardMatch := cardMatch,
    rrfBoost := boost,
    score := rrfScore + boost,
    rrfScore := rrfScore,
    titleScore := 0 }

/-- A ranked candidate triple `(final_score, title_score, doc)`. -/
structure Cand where
  score : ℚ
  titleScore : ℤ
  doc : DocCand
  deriving Repr, DecidableEq, Inhabited

def firstNonEmpty (a b c : String) : String :=
  if a ≠ "" then a else if b ≠ "" then b else c

/-- `_rows_to_docs` (retriever_rank.py:223-248): builds the per-phase doc
and 1-based rank maps, skipping duplicate keys and noisy guide documents. -/
def rowsToDocsGo (table : String) (useVec : Bool) (seen : List String) (idx : ℕ) :
    List Row → List (String × DocCand × ℕ)
  | [] => []
  | r :: rest =>
      let key := table ++ ":" ++ r.docId
      if key ∈ seen then rowsToDocsGo table useVec seen (idx + 1) rest
      else
        let title := firstNonEmpty r.metadata.title r.metadata.name r.metadata.cardName
        if isGuideTable table && isNoisyGuideDoc title r.content then
          rowsToDocsGo table useVec seen (idx + 1) rest
        else
          (key, ({ id := (if r.metadata.mid ≠ "" then r.metadata.mid else r.docId),
                   dbId := r.docId,
                   title := title,
                   content := r.content,
                   metadata := r.metadata,
                   vectorScore := (if useVec then r.score else 0),
                   table := table }, idx))
            :: rowsToDocsGo table useVec (key :: seen) (idx + 1) rest

def rowsToDocs (rows : List Row) (table : String) (useVec : Bool) :
    List (String × DocCand × ℕ) :=
  rowsToDocsGo table useVec [] 1 rows

/-- The RRF contribution of one phase: `1/(RRF_K + rank)` when the candidate
has a rank in that phase, else nothing added. -/
def rankContrib : Option ℕ → ℚ
  | none => 0
  | some r => 1 / ((RRF_K : ℚ) + r)

/-- `_build_candidates_from_rows` (retriever_rank.py:346-368): candidates
are the union of both phases' keys; each gets the summed RRF score and is
run through `_score_candidate`. -/
def buildCandidatesFromRows (vecRows kwRows : List Row) (table : String)
    (ctx : SearchContext) : List Cand :=
  let vec := rowsToDocs vecRows table true
  let kw := rowsToDocs kwRows table false
  let keys := uniqueInOrder (vec.map Prod.fst ++ kw.map Prod.fst)
  keys.filterMap (fun key =>
    let docOpt := match vec.lookup key with
      | some (d, _) => some d
      | none => (kw.lookup key).map Prod.fst
    match docOpt with
    | none => none
    | some doc =>
        let rrf := rankContrib ((vec.lookup key).map Prod.snd)
          + rankContrib ((kw.lookup key).map Prod.snd)
        let d := scoreCandidate doc ctx rrf
        some { score := d.score, titleScore := d.titleScore, doc := d })

/-! ## Finalization (`_finalize_candidates`, retriever_rank.py:385-413) -/

/-- Python `list.sort(key=(score, title_score), reverse=True)`: stable
descending lexicographic sort. -/
def candLE (a b : Cand) : Bool :=
  decide (b.score < a.score)
    || (decide (a.score = b.score) && decide (b.titleScore ≤ a.titleScore))

def docLE (a b : DocCand) : Bool :=
  decide (b.score < a.score)
    || (decide (a.score = b.score) && decide (b.titleScore ≤ a.titleScore))

/-- Python tuple comparison `rank_key > existing_rank_key` for
`(content_len, final_score)`. -/
def rankKeyGT (a b : ℕ × ℚ) : Bool :=
  decide (b.1 < a.1) || (decide (a.1 = b.1) && decide (b.2 < a.2))

/-- Python dict assignment: overwrite in place, else append at the end. -/
def setA {α : Type} : List (String × α) → String → α → List (String × α)
  | [], k, v => [(k, v)]
  | (k', v') :: rest, k, v =>
      if k' = k then (k', v) :: rest else (k', v') :: setA rest k v

/-- The `best_by_title` dedup loop (retriever_rank.py:402-409): per title
key keep the instance with the lexicographically larger
`(content_len, final_score)`. -/
def bestByTitleGo (keyFn : DocCand → String)
    (acc : List (String × ((ℕ × ℚ) × DocCand))) :
    List Cand → List (String × ((ℕ × ℚ) × DocCand))
  | [] => acc
  | c :: rest =>
      let key := keyFn c.doc
      let rankKey := (c.doc.content.length, c.score)
      let acc' := match acc.lookup key with
        | none => setA acc key (rankKey, c.doc)
        | some (rk, _) =>
            if rankKeyGT rankKey rk then setA acc key (rankKey, c.doc) else acc
      bestByTitleGo keyFn acc' rest

/-- `_finalize_candidates` (retriever_rank.py:385-413): sort by
(score, title_score) descending, apply the card-match drop, dedup by title
key, and re-sort the surviving docs. -/
def finalizeCandidates (cands : List Cand) (keyFn : DocCand → String)
    (ctx : SearchContext) : List DocCand :=
  let sorted := cands.mergeSort candLE
  let hasCardMatch := sorted.any (fun c => c.doc.cardMatch)
  let filtered := if hasCardMatch then
      (if ctx.allowGuideWithoutCardMatch then
        sorted.filter (fun c => c.doc.cardMatch || isGuideTable c.doc.table)
      else sorted.filter (fun c => c.doc.cardMatch))
    else sorted
  let best := bestByTitleGo keyFn [] filtered
  ((best.map (fun p => p.2.2)).mergeSort docLE)

/-! ## Lane composition (`retrieve_multi`, retriever/retriever.py:370-411) -/

/-- `_doc_key` (retriever/retriever.py:370-372). -/
def docKeyFn (d : DocCand) : String :=
  if d.title ≠ "" then d.title else "__no_title__" ++ d.table ++ ":" ++ d.id

/-- The result composition of `retrieve_multi`
(retriever/retriever.py:374-411), as a function of the collected candidates:
the card_info lane, the two mixed-lane compositions and the single-lane
compositions, each truncated to `top_k`. -/
def retrieveMultiCompose (candidates : List Cand) (routeName : Option String)
    (laneAllowMixed : Bool) (ctx : SearchContext) (topK : ℕ) : List DocCand :=
  let cardDocs := candidates.filter (fun c => c.doc.table = "card_products")
  let guideDocs := candidates.filter (fun c => c.doc.table = "service_guide_documents")
  if routeName = some "card_info" then
    if !laneAllowMixed then
      (finalizeCandidates (cardDocs.take topK) docKeyFn ctx).take topK
    else
      let ordered0 := if !cardDocs.isEmpty then cardDocs.take (max 1 (topK - 1)) else []
      let ordered1 := if !guideDocs.isEmpty && decide (ordered0.length < topK) then
          ordered0 ++ guideDocs.take 1 else ordered0
      let ordered2 := if decide (ordered1.length < topK) then
          ordered1 ++ (candidates.filter (fun c => c ∉ ordered1)).take
            (topK - ordered1.length)
        else ordered1
      (finalizeCandidates ordered2 docKeyFn ctx).take topK
  else
    if !laneAllowMixed then
      (finalizeCandidates (guideDocs.take topK) docKeyFn ctx).take topK
    else
      let diverse0 := cardDocs.take 1 ++ guideDocs.take 1
      let rest := candidates.filter (fun c => c ∉ diverse0)
      let diverse1 := diverse0 ++ rest.take (topK - diverse0.length)
      (finalizeCandidates diverse1 docKeyFn ctx).take topK

/-- The per-store search pipeline of C7: candidates from both phases' rows,
finalized, projected to the ordered document-id list. -/
def searchStoreIds (vecRows kwRows : List Row) (table : String)
    (ctx : SearchContext) : List String :=
  (finalizeCandidates (buildCandidatesFromRows vecRows kwRows table ctx) docKeyFn
    ctx).map DocCand.id

/-- A concrete guide-store document for witnesses. -/
def sampleDoc : DocCand where
  id := "x"
  dbId := "x"
  title := "t"
  content := "c"
  metadata := {}
  vectorScore := 0
  table := "guide_tbl"

/-- A concrete store row for witnesses. -/
def sampleRow : Row where
  docId := "a"
  content := "c"
  metadata := {}
  score := 1

/-! ## Rank-map lemmas for the RRF claims -/

theorem lookup_cons_eqA {β : Type} (k : String) (b : β) (es : List (String × β)) :
    List.lookup k ((k, b) :: es) = some b := by
  simp [List.lookup]

theorem lookup_cons_neA {β : Type} (k a : String) (b : β) (es : List (String × β))
    (h : k ≠ a) : List.lookup k ((a, b) :: es) = List.lookup k es := by
  simp only [List.lookup]
  rw [show (k == a) = false from beq_eq_false_iff_ne.mpr h]

theorem strAppend_left_cancel (a x y : String) (h : a ++ x = a ++ y) : x = y := by
  have hd : a.data ++ x.data = a.data ++ y.data := congrArg String.data h
  have hxy : x.data = y.data := List.append_cancel_left hd
  cases x
  cases y
  exact congrArg String.mk hxy

/-- Every entry of the rank map points back at the row list: an entry with
rank `r` (counting from `idx`) is the row at offset `r - idx`, and its key
is the table-qualified id of that row. -/
theorem rowsToDocsGo_lookup (table : String) (useVec : Bool) :
    ∀ (rows : List Row) (seen : List String) (idx : ℕ) (k : String) (d : DocCand)
      (r : ℕ),
      (rowsToDocsGo table useVec seen idx rows).lookup k = some (d, r) →
      idx ≤ r ∧ ∃ row, rows.get? (r - idx) = some row
        ∧ k = table ++ ":" ++ row.docId ∧ d.dbId = row.docId := by
  intro rows
  induction rows with
  | nil =>
      intro seen idx k d r h
      simp [rowsToDocsGo] at h
  | cons r0 rest ih =>
      intro seen idx k d r h
      have hstep : ∀ seen', (rowsToDocsGo table useVec seen' (idx + 1) rest).lookup k
          = some (d, r) →
          idx ≤ r ∧ ∃ row, (r0 :: rest).get? (r - idx) = some row
            ∧ k = table ++ ":" ++ row.docId ∧ d.dbId = row.docId := by
        intro seen' h'
        obtain ⟨h1, row, hrow, hk, hdb⟩ := ih seen' (idx + 1) k d r h'
        refine ⟨Nat.le_of_succ_le h1, row, ?_, hk, hdb⟩
        have hsub : r - idx = (r - (idx + 1)) + 1 := by omega
        rw [hsub]
        simpa using hrow
      simp only [rowsToDocsGo] at h
      split at h
      · exact hstep _ h
      · split at h
        · exact hstep _ h
        · by_cases hk : k = table ++ ":" ++ r0.docId
          · subst hk
            rw [lookup_cons_eqA] at h
            obtain ⟨hd, hr⟩ := Prod.mk.injEq .. ▸ Option.some.inj h
            refine ⟨by omega, r0, ?_, rfl, ?_⟩
            · rw [← hr, Nat.sub_self]
              rfl
            · rw [← hd]
          · rw [lookup_cons_neA _ _ _ _ hk] at h
            exact hstep _ h

/-- Ranks are 1-based positions: a rank-map entry with rank `r` is the row
at 0-based index `r - 1`, carrying the candidate's id. -/
theorem rowsToDocs_rank_pos (rows : List Row) (table : String) (useVec : Bool)
    (dbId : String) (d : DocCand) (r : ℕ)
    (h : (rowsToDocs rows table useVec).lookup (table ++ ":" ++ dbId) = some (d, r)) :
    1 ≤ r ∧ ∃ row, rows.get? (r - 1) = some row ∧ row.docId = dbId := by
  obtain ⟨h1, row, hrow, hk, hdb⟩ := rowsToDocsGo_lookup table useVec rows [] 1
    (table ++ ":" ++ dbId) d r h
  exact ⟨h1, row, hrow, (strAppend_left_cancel (table ++ ":") dbId row.docId hk).symm⟩

theorem scoreCandidate_rrfScore (doc : DocCand) (ctx : SearchContext) (rrf : ℚ) :
    (scoreCandidate doc ctx rrf).rrfScore = rrf := rfl

theorem scoreCandidate_dbId (doc : DocCand) (ctx : SearchContext) (rrf : ℚ) :
    (scoreCandidate doc ctx rrf).dbId = doc.dbId := rfl

/-- The fused pre-boost score decomposes as RRF plus a rank-independent
boost. -/
theorem scoreCandidate_score (doc : DocCand) (ctx : SearchContext) (rrf : ℚ) :
    (scoreCandidate doc ctx rrf).score
      = rrf + boostScore doc ctx (decide (0 < cardMetaScore doc.metadata ctx.cardValues)
          || cardTermMatch doc.title doc.content ctx.cardTerms) := rfl

/-- C4: every built candidate's RRF score is the sum, over the phases in
which its key appears, of 1/(RRF_K + rank) with RRF_K = 60, an absent phase
contributing zero; and each phase's rank is the candidate's 1-based position
in that phase's row list. -/
theorem c4_rrf_fusion (vecRows kwRows : List Row) (table : String)
    (ctx : SearchContext) (c : Cand)
    (hc : c ∈ buildCandidatesFromRows vecRows kwRows table ctx) :
    c.doc.rrfScore
      = rankContrib (((rowsToDocs vecRows table true).lookup
          (table ++ ":" ++ c.doc.dbId)).map Prod.snd)
        + rankContrib (((rowsToDocs kwRows table false).lookup
          (table ++ ":" ++ c.doc.dbId)).map Prod.snd)
    ∧ (∀ d r, (rowsToDocs vecRows table true).lookup (table ++ ":" ++ c.doc.dbId)
        = some (d, r) →
        1 ≤ r ∧ ∃ row, vecRows.get? (r - 1) = some row ∧ row.docId = c.doc.dbId)
    ∧ (∀ d r, (rowsToDocs kwRows table false).lookup (table ++ ":" ++ c.doc.dbId)
        = some (d, r) →
        1 ≤ r ∧ ∃ row, kwRows.get? (r - 1) = some row ∧ row.docId = c.doc.dbId) := by
  refine ⟨?_, fun d r h => rowsToDocs_rank_pos vecRows table true _ d r h,
    fun d r h => rowsToDocs_rank_pos kwRows table false _ d r h⟩
  simp only [buildCandidatesFromRows] at hc
  obtain ⟨key, hkey, hf⟩ := List.mem_filterMap.mp hc
  rcases hv : (rowsToDocs vecRows table true).lookup key with _ | dv
  · rcases hw : (rowsToDocs kwRows table false).lookup key with _ | dw
    · simp [hv, hw] at hf
    · obtain ⟨d0, r0⟩ := dw
      simp only [hv, hw, Option.map_some'] at hf
      have hc' := (Option.some.inj hf).symm
      have hdb0 : c.doc.dbId = d0.dbId := by
        rw [hc']
        rfl
      obtain ⟨_, row, _, hk, hdb⟩ := rowsToDocsGo_lookup table false kwRows [] 1
        key d0 r0 hw
      have hkeyid : key = table ++ ":" ++ c.doc.dbId := by
        rw [hdb0, hk, hdb]
      rw [← hkeyid, hv, hw, hc']
      simp [scoreCandidate_rrfScore, rankContrib]
  · obtain ⟨d0, r0⟩ := dv
    simp only [hv, Option.map_some'] at hf
    have hc' := (Option.some.inj hf).symm
    have hdb0 : c.doc.dbId = d0.dbId := by
      rw [hc']
      rfl
    obtain ⟨_, row, _, hk, hdb⟩ := rowsToDocsGo_lookup table true vecRows [] 1
      key d0 r0 hv
    have hkeyid : key = table ++ ":" ++ c.doc.dbId := by
      rw [hdb0, hk, hdb]
    rw [← hkeyid, hv, hc']
    simp [scoreCandidate_rrfScore, rankContrib]

theorem headD_mem {α : Type} [Inhabited α] (l : List α) (d : α) (h : l ≠ []) :
    l.headD d ∈ l := by
  cases l with
  | nil => exact absurd rfl h
  | cons x xs => simp

/-- C4 (witness): a single vector row in the card store; the sole candidate
scores 1/(60+1) from the vector phase and zero from the keyword phase. -/
theorem c4_rrf_fusion_witness :
    ((buildCandidatesFromRows [sampleRow] [] "card_tbl" {}).headD
        default).doc.rrfScore
      = rankContrib (((rowsToDocs [sampleRow] "card_tbl" true).lookup
          ("card_tbl" ++ ":" ++ ((buildCandidatesFromRows [sampleRow] [] "card_tbl"
            {}).headD default).doc.dbId)).map Prod.snd)
        + rankContrib (((rowsToDocs [] "card_tbl" false).lookup
          ("card_tbl" ++ ":" ++ ((buildCandidatesFromRows [sampleRow] [] "card_tbl"
            {}).headD default).doc.dbId)).map Prod.snd)
    ∧ (∀ d r, (rowsToDocs [sampleRow] "card_tbl" true).lookup
        ("card_tbl" ++ ":" ++ ((buildCandidatesFromRows [sampleRow] [] "card_tbl"
          {}).headD default).doc.dbId) = some (d, r) →
        1 ≤ r ∧ ∃ row, [sampleRow].get? (r - 1) = some row
          ∧ row.docId = ((buildCandidatesFromRows [sampleRow] [] "card_tbl"
            {}).headD default).doc.dbId)
    ∧ (∀ d r, (rowsToDocs [] "card_tbl" false).lookup
        ("card_tbl" ++ ":" ++ ((buildCandidatesFromRows [sampleRow] [] "card_tbl"
          {}).headD default).doc.dbId) = some (d, r) →
        1 ≤ r ∧ ∃ row, ([] : List Row).get? (r - 1) = some row
          ∧ row.docId = ((buildCandidatesFromRows [sampleRow] [] "card_tbl"
            {}).headD default).doc.dbId) :=
  c4_rrf_fusion [sampleRow] [] "card_tbl" {}
    ((buildCandidatesFromRows [sampleRow] [] "card_tbl" {}).headD default)
    (headD_mem _ default (by decide))

/-- The fused score of a candidate as a function of the two phase ranks,
everything else (document fields, boost inputs) fixed. -/
def fusedScoreAt (doc : DocCand) (ctx : SearchContext) (vecRank kwRank : Option ℕ) :
    ℚ :=
  (scoreCandidate doc ctx (rankContrib vecRank + rankContrib kwRank)).score

theorem rankContrib_mono (r1 r2 : ℕ) (h : r1 ≤ r2) :
    rankContrib (some r2) ≤ rankContrib (some r1) := by
  simp only [rankContrib, RRF_K]
  apply one_div_le_one_div_of_le
  · positivity
  · have : (r1 : ℚ) ≤ (r2 : ℚ) := by exact_mod_cast h
    linarith

/-- C5: improving a candidate's rank in either phase (the other phase's rank
and all document/boost inputs held fixed) never decreases the fused score. -/
theorem c5_rank_monotone (doc : DocCand) (ctx : SearchContext) (other : Option ℕ)
    (r1 r2 : ℕ) (h : r1 ≤ r2) :
    fusedScoreAt doc ctx (some r2) other ≤ fusedScoreAt doc ctx (some r1) other
    ∧ fusedScoreAt doc ctx other (some r2) ≤ fusedScoreAt doc ctx other (some r1) := by
  have hmono := rankContrib_mono r1 r2 h
  constructor
  · rw [fusedScoreAt, fusedScoreAt, scoreCandidate_score, scoreCandidate_score]
    have := add_le_add_right (add_le_add_right hmono (rankContrib other))
      (boostScore doc ctx (decide (0 < cardMetaScore doc.metadata ctx.cardValues)
        || cardTermMatch doc.title doc.content ctx.cardTerms))
    linarith
  · rw [fusedScoreAt, fusedScoreAt, scoreCandidate_score, scoreCandidate_score]
    have := add_le_add_left hmono (rankContrib other)
    linarith

/-- C5 (witness): rank 1 versus rank 2 on a concrete document. -/
theorem c5_rank_monotone_witness :
    fusedScoreAt sampleDoc {} (some 2) none ≤ fusedScoreAt sampleDoc {} (some 1) none
    ∧ fusedScoreAt sampleDoc {} none (some 2)
      ≤ fusedScoreAt sampleDoc {} none (some 1) :=
  c5_rank_monotone sampleDoc {} none 1 2 (by decide)

/-- C7: the per-store search result is a deterministic function of the query
rows and context — two runs over identical phase rows and identical context
return the identical ordered document-id list. -/
theorem c7_deterministic (vecRows1 kwRows1 vecRows2 kwRows2 : List Row)
    (table1 table2 : String) (ctx1 ctx2 : SearchContext)
    (hv : vecRows1 = vecRows2) (hk : kwRows1 = kwRows2) (ht : table1 = table2)
    (hc : ctx1 = ctx2) :
    searchStoreIds vecRows1 kwRows1 table1 ctx1
      = searchStoreIds vecRows2 kwRows2 table2 ctx2 := by
  subst hv
  subst hk
  subst ht
  subst hc
  rfl

/-- C7 (witness): two identical concrete runs. -/
theorem c7_deterministic_witness :
    searchStoreIds [sampleRow] [] "card_tbl" {}
      = searchStoreIds [sampleRow] [] "card_tbl" {} :=
  c7_deterministic [sampleRow] [] [sampleRow] [] "card_tbl" "card_tbl" {} {}
    rfl rfl rfl rfl

/-- C10: `retrieve_multi`'s composed result never exceeds `top_k` documents,
on the card_info lane, both mixed-lane compositions and both single-lane
compositions. -/
theorem c10_topk_bound (candidates : List Cand) (routeName : Option String)
    (laneAllowMixed : Bool) (ctx : SearchContext) (topK : ℕ) :
    (retrieveMultiCompose candidates routeName laneAllowMixed ctx topK).length
      ≤ topK := by
  unfold retrieveMultiCompose
  repeat' split
  all_goals exact List.length_take_le _ _

/-! ## Fetch sizing (C9) -/

/-- `_fetch_k` of the current retriever (retriever/retriever.py:148-149). -/
def fetchK (topK : ℕ) : ℕ :=
  max (topK * 2) (topK + 3)

/-- `_fetch_k` of the legacy retriever (retriever.py:18-19). -/
def fetchKLegacy (topK : ℕ) : ℕ :=
  max (topK * 3) (topK + 5)

/-- C9 (counterexample): at topK = 3 the claimed fetch size max(2·topK,
topK+5) = 8 matches neither `_fetch_k`: the current retriever fetches 6 and
the legacy retriever fetches 9. -/
theorem c9_counterexample :
    fetchK 3 ≠ max (3 * 2) (3 + 5) ∧ fetchKLegacy 3 ≠ max (3 * 2) (3 + 5) := by
  decide

/-- C9 (amended): the per-phase fetch size is max(2·topK, topK+3) in the
current retriever and max(3·topK, topK+5) in the legacy retriever;
equivalently 2·topK (resp. 3·topK) once topK ≥ 3, else topK+3 (resp.
topK+5). -/
theorem c9_amended (topK : ℕ) :
    fetchK topK = (if 3 ≤ topK then topK * 2 else topK + 3)
    ∧ fetchKLegacy topK = (if 3 ≤ topK then topK * 3 else topK + 5) := by
  constructor
  · unfold fetchK
    rw [Nat.max_def]
    split
    · split
      all_goals omega
    · split
      all_goals omega
  · unfold fetchKLegacy
    rw [Nat.max_def]
    split
    · split
      all_goals omega
    · split
      all_goals omega

/-! ## Pin injection (`_append_pins`, pipeline/retrieve.py:406-440) -/

/-- A retrieved or pinned document as seen by pin injection; extra payload
fields are irrelevant to the merge logic. -/
structure PinDoc where
  id : String := ""
  dbId : String := ""
  pinned : Bool := false
  pinRank : Option ℕ := none
  deriving Repr, DecidableEq, Inhabited

/-- Python `str(doc.get("id") or doc.get("db_id") or "")`. -/
def pinKey (d : PinDoc) : String :=
  if d.id ≠ "" then d.id else d.dbId

structure PinState where
  docs : List PinDoc
  pinnedAdded : ℕ
  deriving Repr, DecidableEq

/-- `retrieved_index` construction (pipeline/retrieve.py:416-420): id → last
index, empty ids skipped. -/
def buildPinIndex : List PinDoc → ℕ → List (String × ℕ) → List (String × ℕ)
  | [], _, m => m
  | d :: rest, i, m =>
      buildPinIndex rest (i + 1) (if pinKey d = "" then m else setA m (pinKey d) i)

/-- Marking an already-ranked document (pipeline/retrieve.py:426-431): set
the pin flag and copy the pin rank when the pin carries one. -/
def markPinned (existing pin : PinDoc) : PinDoc :=
  { existing with
    pinned := true,
    pinRank := match pin.pinRank with
      | some r => some r
      | none => existing.pinRank }

def appendPinsGo (pinMax : ℕ) (idxMap : List (String × ℕ)) (st : PinState) :
    List PinDoc → PinState
  | [] => st
  | d :: rest =>
      let did := pinKey d
      if did = "" then appendPinsGo pinMax idxMap st rest
      else match idxMap.lookup did with
      | some i =>
          appendPinsGo pinMax idxMap
            { docs := st.docs.set i (markPinned (st.docs.getD i default) d),
              pinnedAdded := st.pinnedAdded } rest
      | none =>
          if st.pinnedAdded < pinMax then
            let docs' := st.docs ++ [{ d with pinned := true }]
            let st' : PinState := { docs := docs', pinnedAdded := st.pinnedAdded + 1 }
            if pinMax ≤ st'.pinnedAdded then st'
            else appendPinsGo pinMax (setA idxMap did (docs'.length - 1)) st' rest
          else appendPinsGo pinMax idxMap st rest

/-- `_append_pins` (pipeline/retrieve.py:412-440): one evaluated pin
request.  `pinnedAdded` persists across requests of one query. -/
def appendPins (pinMax : ℕ) (st : PinState) (pinnedDocs : List PinDoc) : PinState :=
  if pinMax ≤ st.pinnedAdded || pinnedDocs.isEmpty then st
  else appendPinsGo pinMax (buildPinIndex st.docs 0 []) st pinnedDocs

/-- The number of entries whose effective id is `k`. -/
def countKey (docs : List PinDoc) (k : String) : ℕ :=
  (docs.filter (fun d => pinKey d = k)).length

theorem lookup_setA_self {α : Type} (m : List (String × α)) (k : String) (v : α) :
    (setA m k v).lookup k = some v := by
  induction m with
  | nil => simp [setA]
  | cons p rest ih =>
      obtain ⟨k', v'⟩ := p
      by_cases h : k' = k
      · subst h
        simp [setA]
      · rw [show setA ((k', v') :: rest) k v = (k', v') :: setA rest k v from by
          simp [setA, h]]
        rw [lookup_cons_neA k k' v' _ (Ne.symm h), ih]

theorem lookup_setA_ne {α : Type} (m : List (String × α)) (k k' : String) (v : α)
    (h : k' ≠ k) : (setA m k v).lookup k' = m.lookup k' := by
  induction m with
  | nil =>
      rw [show setA ([] : List (String × α)) k v = [(k, v)] from rfl,
        lookup_cons_neA k' k v [] h]
  | cons p rest ih =>
      obtain ⟨a, b⟩ := p
      by_cases ha : a = k
      · subst ha
        rw [show setA ((a, b) :: rest) a v = (a, v) :: rest from by simp [setA]]
        rw [lookup_cons_neA k' a v rest h, lookup_cons_neA k' a b rest h]
      · rw [show setA ((a, b) :: rest) k v = (a, b) :: setA rest k v from by
          simp [setA, ha]]
        by_cases hb : k' = a
        · subst hb
          rw [lookup_cons_eqA, lookup_cons_eqA]
        · rw [lookup_cons_neA k' a b _ hb, lookup_cons_neA k' a b rest hb, ih]

theorem countKey_cons (d : PinDoc) (rest : List PinDoc) (k : String) :
    countKey (d :: rest) k
      = (if pinKey d = k then 1 else 0) + countKey rest k := by
  unfold countKey
  rw [List.filter_cons]
  by_cases h : pinKey d = k
  · simp [h, Nat.add_comm]
  · simp [h]

theorem countKey_set (docs : List PinDoc) (i : ℕ) (x : PinDoc)
    (h : pinKey x = pinKey (docs.getD i default)) (k : String) :
    countKey (docs.set i x) k = countKey docs k := by
  induction docs generalizing i with
  | nil => rfl
  | cons d rest ih =>
      cases i with
      | zero =>
          rw [List.set_cons_zero, countKey_cons, countKey_cons]
          rw [show pinKey x = pinKey d from h]
      | succ n =>
          rw [List.set_cons_succ, countKey_cons, countKey_cons]
          rw [ih n (by simpa using h)]

theorem countKey_append_one (docs : List PinDoc) (d : PinDoc) (k : String) :
    countKey (docs ++ [d]) k
      = countKey docs k + (if pinKey d = k then 1 else 0) := by
  unfold countKey
  rw [List.filter_append]
  by_cases h : pinKey d = k
  · simp [List.filter, h]
  · simp [List.filter, h]

theorem pinKey_markPinned (e p : PinDoc) : pinKey (markPinned e p) = pinKey e := rfl

theorem buildPinIndex_complete :
    ∀ (docs : List PinDoc) (i : ℕ) (m : List (String × ℕ)) (k : String),
    k ≠ "" → (buildPinIndex docs i m).lookup k = none →
    m.lookup k = none ∧ countKey docs k = 0 := by
  intro docs
  induction docs with
  | nil =>
      intro i m k hk h
      exact ⟨h, rfl⟩
  | cons d rest ih =>
      intro i m k hk h
      simp only [buildPinIndex] at h
      obtain ⟨hm', hcount⟩ := ih (i + 1) _ k hk h
      by_cases hd : pinKey d = ""
      · rw [if_pos hd] at hm'
        have hne : pinKey d ≠ k := by
          rw [hd]
          exact Ne.symm hk
        refine ⟨hm', ?_⟩
        rw [countKey_cons, if_neg hne, hcount]
      · rw [if_neg hd] at hm'
        by_cases hdk : pinKey d = k
        · exfalso
          rw [hdk, lookup_setA_self] at hm'
          exact Option.some_ne_none _ hm'
        · rw [lookup_setA_ne _ _ _ _ (Ne.symm hdk)] at hm'
          refine ⟨hm', ?_⟩
          rw [countKey_cons, if_neg hdk, hcount]

/-- The invariant step: a single `_append_pins` loop preserves the pin cap,
grows the list exactly by the number of appended pins, and never changes
the multiplicity of an id already present. -/
theorem appendPinsGo_spec (pinMax : ℕ) :
    ∀ (pins : List PinDoc) (idxMap : List (String × ℕ)) (st : PinState),
    (∀ k, k ≠ "" → idxMap.lookup k = none → countKey st.docs k = 0) →
    st.pinnedAdded ≤ pinMax →
    (appendPinsGo pinMax idxMap st pins).pinnedAdded ≤ pinMax
    ∧ (appendPinsGo pinMax idxMap st pins).docs.length + st.pinnedAdded
        = st.docs.length + (appendPinsGo pinMax idxMap st pins).pinnedAdded
    ∧ ∀ k, k ≠ "" → 0 < countKey st.docs k →
        countKey (appendPinsGo pinMax idxMap st pins).docs k = countKey st.docs k := by
  intro pins
  induction pins with
  | nil =>
      intro idxMap st hcomp hpa
      exact ⟨hpa, rfl, fun k _ _ => rfl⟩
  | cons d rest ih =>
      intro idxMap st hcomp hpa
      by_cases hdid : pinKey d = ""
      · have heq : appendPinsGo pinMax idxMap st (d :: rest)
            = appendPinsGo pinMax idxMap st rest := by
          simp only [appendPinsGo]
          rw [if_pos hdid]
        rw [heq]
        exact ih idxMap st hcomp hpa
      · rcases hl : idxMap.lookup (pinKey d) with _ | i
        · -- new id: maybe append
          by_cases hroom : st.pinnedAdded < pinMax
          · have hzero : countKey st.docs (pinKey d) = 0 := hcomp _ hdid hl
            set nd : PinDoc := { d with pinned := true } with hnd
            have hndkey : pinKey nd = pinKey d := rfl
            set st' : PinState :=
              { docs := st.docs ++ [nd], pinnedAdded := st.pinnedAdded + 1 } with hst'
            have hlen' : st'.docs.length = st.docs.length + 1 := by
              rw [hst']
              simp
            have hcount' : ∀ k, k ≠ "" → 0 < countKey st.docs k →
                countKey st'.docs k = countKey st.docs k := by
              intro k hk hpos
              have hne : pinKey nd ≠ k := by
                rw [hndkey]
                intro hcon
                rw [hcon] at hzero
                omega
              rw [hst']
              rw [countKey_append_one, if_neg hne]
              omega
            have hcomp' : ∀ k, k ≠ "" →
                (setA idxMap (pinKey d) (st'.docs.length - 1)).lookup k = none →
                countKey st'.docs k = 0 := by
              intro k hk hlk
              by_cases hkd : k = pinKey d
              · exfalso
                rw [hkd, lookup_setA_self] at hlk
                exact Option.some_ne_none _ hlk
              · rw [lookup_setA_ne _ _ _ _ hkd] at hlk
                have := hcomp k hk hlk
                rw [hst', countKey_append_one, this, if_neg]
                rw [hndkey]
                exact fun hcon => hkd (hcon.symm)
            have hpa' : st'.pinnedAdded = st.pinnedAdded + 1 := by rw [hst']
            by_cases hfull : pinMax ≤ st.pinnedAdded + 1
            · have heq : appendPinsGo pinMax idxMap st (d :: rest) = st' := by
                simp only [appendPinsGo, hl]
                rw [if_neg hdid, if_pos hroom, if_pos hfull]
              rw [heq]
              refine ⟨by omega, by omega, ?_⟩
              · intro k hk hpos
                exact hcount' k hk hpos
            · have heq : appendPinsGo pinMax idxMap st (d :: rest)
                  = appendPinsGo pinMax (setA idxMap (pinKey d)
                    (st'.docs.length - 1)) st' rest := by
                simp only [appendPinsGo, hl]
                rw [if_neg hdid, if_pos hroom, if_neg hfull]
              rw [heq]
              obtain ⟨h1, h2, h3⟩ := ih _ st' hcomp' (by omega)
              refine ⟨h1, by omega, ?_⟩
              · intro k hk hpos
                rw [h3 k hk (by rw [hcount' k hk hpos]; exact hpos),
                  hcount' k hk hpos]
          · have heq : appendPinsGo pinMax idxMap st (d :: rest)
                = appendPinsGo pinMax idxMap st rest := by
              simp only [appendPinsGo, hl]
              rw [if_neg hdid, if_neg hroom]
            rw [heq]
            exact ih idxMap st hcomp hpa
        · -- already ranked: mark in place
          set st' : PinState :=
            { docs := st.docs.set i (markPinned (st.docs.getD i default) d),
              pinnedAdded := st.pinnedAdded } with hst'
          have heq : appendPinsGo pinMax idxMap st (d :: rest)
              = appendPinsGo pinMax idxMap st' rest := by
            simp only [appendPinsGo, hl]
            rw [if_neg hdid]
          have hck : ∀ k, countKey st'.docs k = countKey st.docs k := by
            intro k
            rw [hst']
            exact countKey_set st.docs i _ (pinKey_markPinned _ _) k
          have hcomp' : ∀ k, k ≠ "" → idxMap.lookup k = none →
              countKey st'.docs k = 0 := by
            intro k hk hlk
            rw [hck k]
            exact hcomp k hk hlk
          rw [heq]
          obtain ⟨h1, h2, h3⟩ := ih idxMap st' hcomp' hpa
          refine ⟨h1, ?_, ?_⟩
          · have hlen : st'.docs.length = st.docs.length := by
              rw [hst']
              simp
            rw [hlen] at h2
            exact h2
          · intro k hk hpos
            rw [h3 k hk (by rw [hck k]; exact hpos), hck k]

theorem appendPins_spec (pinMax : ℕ) (st : PinState) (pins : List PinDoc)
    (hpa : st.pinnedAdded ≤ pinMax) :
    (appendPins pinMax st pins).pinnedAdded ≤ pinMax
    ∧ (appendPins pinMax st pins).docs.length + st.pinnedAdded
        = st.docs.length + (appendPins pinMax st pins).pinnedAdded
    ∧ ∀ k, k ≠ "" → 0 < countKey st.docs k →
        countKey (appendPins pinMax st pins).docs k = countKey st.docs k := by
  unfold appendPins
  split
  · exact ⟨hpa, rfl, fun k _ _ => rfl⟩
  · exact appendPinsGo_spec pinMax pins (buildPinIndex st.docs 0 []) st
      (fun k hk hlk => (buildPinIndex_complete st.docs 0 [] k hk hlk).2) hpa

theorem appendPins_fold_spec (pinMax : ℕ) :
    ∀ (requests : List (List PinDoc)) (st : PinState),
    st.pinnedAdded ≤ pinMax →
    (requests.foldl (appendPins pinMax) st).pinnedAdded ≤ pinMax
    ∧ (requests.foldl (appendPins pinMax) st).docs.length + st.pinnedAdded
        = st.docs.length + (requests.foldl (appendPins pinMax) st).pinnedAdded
    ∧ ∀ k, k ≠ "" → 0 < countKey st.docs k →
        countKey (requests.foldl (appendPins pinMax) st).docs k
          = countKey st.docs k := by
  intro requests
  induction requests with
  | nil =>
      intro st hpa
      exact ⟨hpa, rfl, fun k _ _ => rfl⟩
  | cons pins rest ih =>
      intro st hpa
      obtain ⟨g1, g2, g3⟩ := appendPins_spec pinMax st pins hpa
      obtain ⟨h1, h2, h3⟩ := ih (appendPins pinMax st pins) g1
      rw [List.foldl_cons]
      refine ⟨h1, by omega, ?_⟩
      intro k hk hpos
      rw [h3 k hk (by rw [g3 k hk hpos]; exact hpos), g3 k hk hpos]

/-- C6: over any sequence of pin requests for one query, pin injection
appends at most `pin_max` new documents (the ranked list grows by at most
the cap), and an id already present in the ranked list never gains a second
entry — its multiplicity is unchanged (the existing entry is only marked). -/
theorem c6_pin_injection (pinMax : ℕ) (init : List PinDoc)
    (requests : List (List PinDoc)) :
    (requests.foldl (appendPins pinMax) { docs := init, pinnedAdded := 0 }).docs.length
      ≤ init.length + pinMax
    ∧ ∀ k, k ≠ "" → 0 < countKey init k →
        countKey (requests.foldl (appendPins pinMax)
          { docs := init, pinnedAdded := 0 }).docs k = countKey init k := by
  obtain ⟨h1, h2, h3⟩ := appendPins_fold_spec pinMax requests
    { docs := init, pinnedAdded := 0 } (Nat.zero_le _)
  refine ⟨?_, h3⟩
  have : ({ docs := init, pinnedAdded := 0 } : PinState).docs.length = init.length :=
    rfl
  omega

/-! ## Per-store row fetch (`_fetch_rows`, retriever/retriever.py:226-323)

The store backends (`text_search`, the ANN query) are oracles; the absent
`app/rag/retriever/terms.py` helpers `_expand_guide_terms` and
`_filter_guide_query_terms` are opaque function parameters. -/

def ENABLE_PRIORITY_TERMS : Bool := false

/-- Filter dict keys consumed by the fetch paths. -/
structure Filters where
  scopeFilter : Option String := none
  requireCardNameMatch : Bool := false
  idPref : Option String := none
  category : List String := []
  cardName : List String := []
  intent : List String := []
  weakIntent : List String := []
  deriving Repr, DecidableEq, Inhabited

def LOSS_INTENT_KEYS : List String := ["분실", "도난", "분실도난", "도난분실", "잃어버"]

/-- `_normalize_match_key` (retriever/retriever.py:76-77): strip, lower,
drop whitespace, hyphen, slash and middle dot. -/
def normalizeMatchKey (s : String) : String :=
  String.mk ((strLower (strTrim s)).data.filter
    (fun c => !(c.isWhitespace || c = '-' || c = '/' || c = '·')))

/-- `_should_strict_guide_filter` (retriever/retriever.py:80-82). -/
def shouldStrictGuideFilter (terms : List String) : Bool :=
  terms.any (fun t => t ≠ "" && normalizeMatchKey t ∈ LOSS_INTENT_KEYS)

def rowTitle (row : Row) : String :=
  firstNonEmpty row.metadata.title row.metadata.name row.metadata.cardName

/-- `_row_has_any_term` (retriever/retriever.py:115-133). -/
def rowHasAnyTerm (row : Row) (terms : List String) : Bool :=
  let text := strLower (rowTitle row ++ " " ++ row.content)
  let compact := normalizeMatchKey text
  terms.any (fun term => term ≠ ""
    && (strContains text (strLower term)
      || (normalizeMatchKey term ≠ "" && strContains compact (normalizeMatchKey term))))

/-- `_is_card_specific_meta` (retriever/retriever.py:136-139). -/
def isCardSpecificMeta (meta : Metadata) : Bool :=
  strTrim meta.originalCardName ≠ "" || strTrim meta.cardName ≠ ""

def STOPWORDS : List String := ["n/a", "na", "none", "문의", "안내"]

/-- `_extract_query_terms` (retriever_terms.py:100-112). -/
def extractQueryTerms (query : String) : List String :=
  let rawTerms := ((strLower (strTrim query)).split Char.isWhitespace).filter
    (fun t => t ≠ "")
  uniqueInOrder (rawTerms.filter (fun t =>
    !(t.data.all Char.isDigit) && decide (2 ≤ t.length) && t ∉ STOPWORDS))

def PRIORITY_TERMS_BY_CATEGORY : List (String × List String) :=
  [("발급", ["발급 대상"]), ("신청", ["발급 대상"]), ("재발급", ["발급 대상"]),
   ("적립", ["적립 서비스", "일상 생활비 적립", "필수 생활비 적립", "포인트 적립"])]

/-- `_priority_terms` (retriever_terms.py:115-119). -/
def priorityTermsOf (categoryTerms : List String) : List String :=
  uniqueInOrder ((categoryTerms.map
    (fun t => (PRIORITY_TERMS_BY_CATEGORY.lookup t).getD [])).flatten)

/-- Modelled from the spec: `app/rag/retriever/db.py` is not under src/.
Per its sibling `retriever_db.py:256-268`, a card-table vector search
delegates to keyword search over the extracted query terms (no embedding);
for guide tables the query is embedded and ANN-searched, and per spec §7 an
EmbeddingProviderError is non-fatal and aborts only the vector phase, which
then contributes no rows. -/
def vectorSearchM (embedResult : Except Unit (List ℚ)) (table : String)
    (queryText : String) (filters : Filters)
    (textSearchFn : String → List String → Filters → List Row)
    (annFn : List ℚ → String → Filters → List Row) : List Row :=
  if isCardTable table then
    let terms := extractQueryTerms queryText
    let terms := if terms.isEmpty && strTrim queryText ≠ "" then [strTrim queryText]
      else terms
    textSearchFn table terms filters
  else match embedResult with
  | .error _ => []
  | .ok emb => annFn emb table filters

/-- The card-table + category filter path (retriever/retriever.py:254-266). -/
def fetchRowsCategoryPath (safeTable : String) (ctx : SearchContext)
    (searchFilters : Filters) (useVector useKeyword : Bool)
    (embedResult : Except Unit (List ℚ))
    (textSearchFn : String → List String → Filters → List Row)
    (annFn : List ℚ → String → Filters → List Row) : List Row :=
  let catFilters := { searchFilters with category := ctx.categoryTerms }
  let rows := if useVector then
      vectorSearchM embedResult safeTable ctx.queryText catFilters textSearchFn annFn
    else []
  let rows := if rows.isEmpty && useKeyword then
      textSearchFn safeTable ctx.queryTerms catFilters else rows
  if rows.isEmpty && useVector then
    vectorSearchM embedResult safeTable ctx.queryText searchFilters textSearchFn annFn
  else rows

/-- The intent-only guide path with loss/theft strict filtering
(retriever/retriever.py:268-295). -/
def fetchRowsIntentOnly (safeTable : String) (ctx : SearchContext)
    (searchFilters : Filters) (useVector useKeyword : Bool)
    (embedResult : Except Unit (List ℚ))
    (textSearchFn : String → List String → Filters → List Row)
    (annFn : List ℚ → String → Filters → List Row)
    (expandGuideTermsFn filterGuideQueryTermsFn : List String → List String) :
    List Row :=
  let guideTerms0 := expandGuideTermsFn
    (uniqueInOrder (searchFilters.intent ++ searchFilters.weakIntent))
  let guideTerms := if guideTerms0.isEmpty then
      filterGuideQueryTermsFn ctx.queryTerms else guideTerms0
  let rows := if useKeyword then
      textSearchFn safeTable
        (if guideTerms.isEmpty then ctx.queryTerms else guideTerms) searchFilters
    else if useVector then
      vectorSearchM embedResult safeTable ctx.queryText searchFilters textSearchFn
        annFn
    else []
  if !guideTerms.isEmpty && shouldStrictGuideFilter guideTerms then
    let filtered := rows.filter (fun r => rowHasAnyTerm r guideTerms)
    let rows1 := if !filtered.isEmpty then filtered else rows
    if ctx.cardValues.isEmpty then
      let generic := rows1.filter (fun r => !isCardSpecificMeta r.metadata)
      if !generic.isEmpty then generic else rows1
    else rows1
  else rows

/-- The basic path with the priority-terms and loose-card extensions
(retriever/retriever.py:297-323). -/
def fetchRowsBasic (safeTable : String) (ctx : SearchContext)
    (searchFilters : Filters) (useVector useKeyword : Bool)
    (embedResult : Except Unit (List ℚ))
    (textSearchFn : String → List String → Filters → List Row)
    (annFn : List ℚ → String → Filters → List Row) : List Row :=
  let rows := if isCardTable safeTable then
      (if useVector then
        vectorSearchM embedResult safeTable ctx.queryText searchFilters textSearchFn
          annFn
      else [])
    else
      let rows0 := if useKeyword then
          textSearchFn safeTable ctx.queryTerms searchFilters else []
      if rows0.isEmpty && useVector then
        vectorSearchM embedResult safeTable ctx.queryText searchFilters textSearchFn
          annFn
      else rows0
  let rows := if ENABLE_PRIORITY_TERMS && useKeyword && isCardTable safeTable
      && !ctx.categoryTerms.isEmpty
      && (ctx.searchMode = "ISSUE" || ctx.searchMode = "BENEFIT") then
      (if !(priorityTermsOf ctx.categoryTerms).isEmpty then
        rows ++ textSearchFn safeTable (priorityTermsOf ctx.categoryTerms)
          searchFilters
      else rows)
    else rows
  if useVector && isCardTable safeTable && !ctx.cardTerms.isEmpty
      && ctx.intentTerms.isEmpty && ctx.paymentTerms.isEmpty
      && ctx.categoryTerms.isEmpty then
    (if !searchFilters.requireCardNameMatch then
      (let extra := vectorSearchM embedResult safeTable ctx.queryText
        { searchFilters with cardName := [] } textSearchFn annFn
      if !extra.isEmpty then rows ++ extra else rows)
    else rows)
  else rows

/-- The search-filter tweaks applied at the top of `_fetch_rows`
(retriever/retriever.py:237-252). -/
def fetchRowsFilters (safeTable : String) (ctx : SearchContext)
    (routeName : Option String) (applepayIntent : Bool)
    (sourceFilter : Option String) (baseFilters : Filters) : Filters :=
  let f0 := match sourceFilter with
    | some f => { baseFilters with scopeFilter := some f }
    | none => baseFilters
  let f1 := if routeName = some "card_info" && isCardTable safeTable
      && !ctx.cardValues.isEmpty then { f0 with requireCardNameMatch := true }
    else f0
  if applepayIntent && safeTable = "service_guide_documents"
    then { f1 with idPref := some "hyundai_applepay" } else f1

/-- `_fetch_rows` (retriever/retriever.py:226-323), one invocation: the
db-call budget, the filter tweaks, and the three search paths in source
order. -/
def fetchRows (safeTable : String) (ctx : SearchContext) (routeName : Option String)
    (applepayIntent useVector useKeyword : Bool)
    (dbCallsExhausted skipGuideWithTermsQuery : Bool)
    (sourceFilter guideWithTermsFilter : Option String)
    (baseFilters : Filters)
    (embedResult : Except Unit (List ℚ))
    (textSearchFn : String → List String → Filters → List Row)
    (annFn : List ℚ → String → Filters → List Row)
    (expandGuideTermsFn filterGuideQueryTermsFn : List String → List String) :
    List Row :=
  if dbCallsExhausted then []
  else if skipGuideWithTermsQuery && decide (sourceFilter = guideWithTermsFilter)
    then []
  else
    let searchFilters := fetchRowsFilters safeTable ctx routeName applepayIntent
      sourceFilter baseFilters
    if isCardTable safeTable && !ctx.categoryTerms.isEmpty then
      fetchRowsCategoryPath safeTable ctx searchFilters useVector useKeyword
        embedResult textSearchFn annFn
    else
      let intentOnly := (!ctx.intentTerms.isEmpty || !ctx.weakTerms.isEmpty)
        && ctx.cardTerms.isEmpty
      if intentOnly && !(isCardTable safeTable) then
        fetchRowsIntentOnly safeTable ctx searchFilters useVector useKeyword
          embedResult textSearchFn annFn expandGuideTermsFn filterGuideQueryTermsFn
      else
        fetchRowsBasic safeTable ctx searchFilters useVector useKeyword embedResult
          textSearchFn annFn

theorem isCardTable_of_guide (t : String) (h : isGuideTable t = true) :
    isCardTable t = false := by
  unfold isGuideTable at h
  rcases Bool.or_eq_true_iff.mp h with h1 | h1
  · rw [decide_eq_true_iff] at h1
    subst h1
    decide
  · rw [decide_eq_true_iff] at h1
    subst h1
    decide

theorem vectorSearchM_error_guide (t : String) (h : isCardTable t = false)
    (e : Unit) (qt : String) (f : Filters)
    (tsf : String → List String → Filters → List Row)
    (ann : List ℚ → String → Filters → List Row) :
    vectorSearchM (.error e) t qt f tsf ann = [] := by
  simp [vectorSearchM, h]

/-- C8: for a guide-store fetch, an embedding-provider failure is non-fatal
and aborts only the vector phase: the fetch returns exactly what a
keyword-only fetch returns (in particular the keyword phase's rows), for
any ANN oracle. -/
theorem c8_embedding_failure_vector_only (safeTable : String)
    (hguide : isGuideTable safeTable = true)
    (ctx : SearchContext) (routeName : Option String)
    (applepayIntent useVector useKeyword dbCallsExhausted skipQ : Bool)
    (sourceFilter gwtFilter : Option String) (baseFilters : Filters) (e : Unit)
    (emb : List ℚ)
    (textSearchFn : String → List String → Filters → List Row)
    (annFn annFn' : List ℚ → String → Filters → List Row)
    (eg fg : List String → List String) :
    fetchRows safeTable ctx routeName applepayIntent useVector useKeyword
      dbCallsExhausted skipQ sourceFilter gwtFilter baseFilters (.error e)
      textSearchFn annFn eg fg
    = fetchRows safeTable ctx routeName applepayIntent false useKeyword
      dbCallsExhausted skipQ sourceFilter gwtFilter baseFilters (.ok emb)
      textSearchFn annFn' eg fg := by
  have hcard : isCardTable safeTable = false := isCardTable_of_guide safeTable hguide
  have hio : ∀ (sf : Filters),
      fetchRowsIntentOnly safeTable ctx sf useVector useKeyword (.error e)
        textSearchFn annFn eg fg
      = fetchRowsIntentOnly safeTable ctx sf false useKeyword (.ok emb)
        textSearchFn annFn' eg fg := by
    intro sf
    cases useKeyword with
    | true => rfl
    | false =>
        cases useVector with
        | true =>
            simp [fetchRowsIntentOnly, vectorSearchM_error_guide safeTable hcard]
        | false => rfl
  have hbasic : ∀ (sf : Filters),
      fetchRowsBasic safeTable ctx sf useVector useKeyword (.error e)
        textSearchFn annFn
      = fetchRowsBasic safeTable ctx sf false useKeyword (.ok emb)
        textSearchFn annFn' := by
    intro sf
    cases useVector with
    | false =>
        simp only [fetchRowsBasic, hcard, Bool.false_eq_true, if_false,
          Bool.and_false, Bool.false_and]
    | true =>
        simp only [fetchRowsBasic, hcard, Bool.false_eq_true, if_false,
          Bool.and_false, Bool.false_and, ENABLE_PRIORITY_TERMS,
          vectorSearchM_error_guide safeTable hcard]
        split
        · simp
        · simp
  unfold fetchRows
  cases dbCallsExhausted with
  | true => rfl
  | false =>
      simp only [Bool.false_eq_true, if_false]
      split
      · rfl
      · have hcatF : (isCardTable safeTable && !ctx.categoryTerms.isEmpty) = false := by
          rw [hcard]
          rfl
        simp only [hcatF, Bool.false_eq_true, if_false]
        split
        · exact hio _
        · exact hbasic _

/-- C8 (witness): a concrete guide-store fetch with a failing embedder and
a one-row keyword oracle. -/
theorem c8_embedding_failure_vector_only_witness :
    fetchRows "service_guide_documents" {} none false true true false false none none
      {} (.error ()) (fun _ _ _ => [sampleRow]) (fun _ _ _ => []) id id
    = fetchRows "service_guide_documents" {} none false false true false false none
      none {} (.ok [1]) (fun _ _ _ => [sampleRow]) (fun _ _ _ => [sampleRow]) id id :=
  c8_embedding_failure_vector_only "service_guide_documents" (by decide) {} none
    false true true false false none none {} () [1] (fun _ _ _ => [sampleRow])
    (fun _ _ _ => []) (fun _ _ _ => [sampleRow]) id id

/-! ## The `run_rag` search gate (`app/rag/pipeline/pipeline.py:184-295`)

The routing/gating inputs are the dict fields `run_rag` reads before and
around the `should_search` check; post-retrieval card/guidance generation is
outside the retrieval core and not modelled — the response's `doc_count`
and the number of `retrieve_docs` invocations are. -/

structure PipelineRouting where
  shouldSearch : Option Bool := none
  shouldRoute : Option Bool := none
  route : Option String := none
  filtersCardName : List String := []
  retrievalMode : String := "keyword_only"
  domainScore : ℤ := 0
  laneFallbackUsed : Bool := false
  deriving Repr, DecidableEq, Inhabited

/-- The result of `decide_search_gating` as consumed by `run_rag`
(pipeline.py:219-246). -/
structure GatingResult where
  noSearch : Bool := false
  message : String := ""
  domainScore : ℤ := 0
  retrievalMode : String := "keyword_only"
  deriving Repr, DecidableEq, Inhabited

/-- `RAGConfig.no_route_answer` default (pipeline.py:64). -/
def NO_ROUTE_ANSWER : String := "카드명/상황을 조금 더 구체적으로 말씀해 주세요."

/-- `_retrieval_failed` (pipeline.py:80-91). -/
def retrievalFailed (docs : List DocCand) (routing : PipelineRouting) : Bool :=
  match docs with
  | [] => true
  | top :: _ =>
      if decide (top.score < 0.05) then true
      else if routing.route = some "card_info" && !routing.filtersCardName.isEmpty
          && !top.cardMatch then true
      else false

structure RagResponse where
  docCount : ℕ
  retrieveCalls : ℕ
  guidanceScript : String
  docs : List DocCand
  deriving Repr, DecidableEq

/-- The search gate and retrieval skeleton of `run_rag`
(pipeline.py:226-295): resolve `should_search` (falling back to
`should_route`, forced off by gating), return the clarification response
with zero documents and zero retrievals when off; otherwise use the cached
documents or call `retrieve_docs` with the hybrid retry and the
domain-confidence route flip.  `retrieveFn n` is the n-th
`retrieve_docs` call of the request. -/
def runRagGate (noRouteAnswer : String) (routing : PipelineRouting)
    (gating : GatingResult) (cacheHit : Option (List DocCand))
    (retrieveFn : ℕ → List DocCand) : RagResponse :=
  let s0 := routing.shouldSearch
  let s1 := if s0 = none then routing.shouldRoute else s0
  let s2 := if gating.noSearch then some false else s1
  if s2.getD false = false then
    { docCount := 0, retrieveCalls := 0,
      guidanceScript := if gating.message ≠ "" then gating.message else noRouteAnswer,
      docs := [] }
  else
    let cached := match cacheHit with
      | some entries => entries
      | none => []
    if !cached.isEmpty then
      { docCount := cached.length, retrieveCalls := 0, guidanceScript := "",
        docs := cached }
    else
      let docs1 := retrieveFn 0
      let retry := retrievalFailed docs1 routing && routing.retrievalMode ≠ "hybrid"
      let docs2 := if retry then retrieveFn 1 else docs1
      let calls2 := if retry then 2 else 1
      let flip := docs2.isEmpty && decide (3 ≤ routing.domainScore)
        && !routing.laneFallbackUsed
      let docs3 := if flip then retrieveFn 2 else docs2
      let calls3 := if flip then calls2 + 1 else calls2
      { docCount := docs3.length, retrieveCalls := calls3, guidanceScript := "",
        docs := docs3 }

/-- C1: when the router's decision carries should_search = false, `run_rag`
returns immediately with zero documents (doc_count 0), performs no
retrieval call, and carries the gating message or the default clarification
prompt. -/
theorem c1_no_search_short_circuit (noRouteAnswer : String)
    (routing : PipelineRouting) (gating : GatingResult)
    (cacheHit : Option (List DocCand)) (retrieveFn : ℕ → List DocCand)
    (h : routing.shouldSearch = some false) :
    (runRagGate noRouteAnswer routing gating cacheHit retrieveFn).docCount = 0
    ∧ (runRagGate noRouteAnswer routing gating cacheHit retrieveFn).retrieveCalls = 0
    ∧ (runRagGate noRouteAnswer routing gating cacheHit retrieveFn).docs = []
    ∧ (runRagGate noRouteAnswer routing gating cacheHit retrieveFn).guidanceScript
        = (if gating.message ≠ "" then gating.message else noRouteAnswer)
    ∧ (noRouteAnswer ≠ "" →
        (runRagGate noRouteAnswer routing gating cacheHit retrieveFn).guidanceScript
          ≠ "") := by
  have hgate : runRagGate noRouteAnswer routing gating cacheHit retrieveFn =
      { docCount := 0, retrieveCalls := 0,
        guidanceScript := if gating.message ≠ "" then gating.message
          else noRouteAnswer,
        docs := [] } := by
    cases hn : gating.noSearch with
    | false => simp [runRagGate, h, hn]
    | true => simp [runRagGate, h, hn]
  refine ⟨by rw [hgate], by rw [hgate], by rw [hgate], by rw [hgate], ?_⟩
  intro hne
  rw [hgate]
  by_cases hm : gating.message = ""
  · simp [hm]
    exact hne
  · simp [hm]

/-- C1 (witness): a decision with should_search = false and an empty gating
message yields the default clarification and no retrieval. -/
theorem c1_no_search_short_circuit_witness :
    (runRagGate NO_ROUTE_ANSWER { shouldSearch := some false } {} none
      (fun _ => [])).docCount = 0
    ∧ (runRagGate NO_ROUTE_ANSWER { shouldSearch := some false } {} none
        (fun _ => [])).retrieveCalls = 0
    ∧ (runRagGate NO_ROUTE_ANSWER { shouldSearch := some false } {} none
        (fun _ => [])).docs = []
    ∧ (runRagGate NO_ROUTE_ANSWER { shouldSearch := some false } {} none
        (fun _ => [])).guidanceScript
        = (if ({} : GatingResult).message ≠ "" then ({} : GatingResult).message
          else NO_ROUTE_ANSWER)
    ∧ (NO_ROUTE_ANSWER ≠ "" →
        (runRagGate NO_ROUTE_ANSWER { shouldSearch := some false } {} none
          (fun _ => [])).guidanceScript ≠ "") :=
  c1_no_search_short_circuit NO_ROUTE_ANSWER { shouldSearch := some false } {} none
    (fun _ => []) rfl

/-- C6 (witness): cap 1, one ranked document "a", a request pinning "a"
(already present) and two new ids; the list grows by exactly the cap and
"a" keeps multiplicity one. -/
theorem c6_pin_injection_witness :
    (([[{ id := "a" }, { id := "b" }, { id := "c" }]].foldl (appendPins 1)
      { docs := [{ id := "a" }], pinnedAdded := 0 }).docs.length
      ≤ [({ id := "a" } : PinDoc)].length + 1)
    ∧ countKey (([[{ id := "a" }, { id := "b" }, { id := "c" }]].foldl (appendPins 1)
        { docs := [{ id := "a" }], pinnedAdded := 0 }).docs) "a"
      = countKey [{ id := "a" }] "a" :=
  ⟨(c6_pin_injection 1 [{ id := "a" }] [[{ id := "a" }, { id := "b" },
      { id := "c" }]]).1,
    (c6_pin_injection 1 [{ id := "a" }] [[{ id := "a" }, { id := "b" },
      { id := "c" }]]).2 "a" (by decide) (by decide)⟩

end RagSpec
